import Mathlib

/-!
Verification development for the WhatsApp account validator
(`src/index.js`).  The JavaScript source is shallowly embedded:

* JS numbers that only ever hold integers (timestamps, counters,
  capacities) become `Nat`;
* JS floating-point scores and confidences become `ℚ` (every constant in
  the scoring tables is a small decimal, and all claims only involve
  coarse threshold comparisons that are unaffected by rounding);
* `async` code becomes explicit state passing: each remote call is an
  entry of an `Env` oracle giving the outcome of that call, and all
  `Date.now()` reads inside one validation are modelled by the single
  clock value `Env.now` (the claims under study never depend on the
  clock advancing inside one call);
* the `parallelProbes` mode differs from the sequential mode only in the
  interleaving of mutations of the shared result object; the claims under
  study only observe per-probe counters and keyword membership, which are
  interleaving-invariant, and the model executes probes sequentially in
  the priority order built by `_buildProbeList`;
* exceptions become `Except String α`, a thrown error being its message
  string (the code only ever consumes `error.message` / `error.toString()`).

The classifier's rolling `history` and the unused `timing` feature are not
modelled: neither influences the value returned by `analyze` (the `timing`
feature is computed by `_extractFeatures` but never read by
`_calculateScores` or `_makePrediction`; `history` only feeds
`getAccuracy`).
-/

attribute [local semireducible] Rat.ofScientific Rat.mul Rat.inv Rat.add Rat.sub

namespace WV

/-! ### String helpers (JS `toLowerCase` / `includes`) -/

/-- JS `String.prototype.toLowerCase` (ASCII view, which covers every
string occurring in the pattern tables and error codes). -/
def toLowerStr (s : String) : String :=
  ⟨s.data.map Char.toLower⟩

/-- Decides whether `needle` is a prefix of `hay` (character lists). -/
def startsWithL : List Char → List Char → Bool
  | [], _ => true
  | _ :: _, [] => false
  | a :: as, b :: bs => a = b && startsWithL as bs

/-- Decides whether `needle` occurs contiguously inside `hay`. -/
def containsSubL (hay needle : List Char) : Bool :=
  startsWithL needle hay ||
    match hay with
    | [] => false
    | _ :: t => containsSubL t needle

/-- JS `String.prototype.includes`. -/
def jsIncludes (hay needle : String) : Bool :=
  containsSubL hay.data needle.data

/-! ### Enumerations (`BanType`, `ReviewType`, `AccountAge`, `ProbeStatus`) -/

/-- The `BanType` enum of the source. -/
inductive BanType where
  | none | spam | violation | permanent
  deriving DecidableEq, Repr

/-- String value of each `BanType` member (used in template literals such
as `pattern_match_${banType}`). -/
def BanType.str : BanType → String
  | .none => "none"
  | .spam => "spam"
  | .violation => "violation"
  | .permanent => "permanent"

/-- The `ReviewType` enum of the source. -/
inductive ReviewType where
  | none | selfAppeal | supportRequired
  deriving DecidableEq, Repr

/-- The `AccountAge` enum of the source. -/
inductive AccountAge where
  | new | medium | old | unknown
  deriving DecidableEq, Repr

/-- The `ProbeStatus` enum of the source. -/
inductive ProbeStatus where
  | pending | success | failed | timeout | skipped
  deriving DecidableEq, Repr

/-! ### Error-pattern table (`ERROR_PATTERNS`) -/

/-- One row of the static `ERROR_PATTERNS` table. -/
structure ErrorPattern where
  keywords : List String
  weight : ℚ
  confidence : ℚ
  deriving DecidableEq, Repr

/-- The `ERROR_PATTERNS` database, in `Object.entries` iteration order
(insertion order: spam, violation, permanent). -/
def ERROR_PATTERNS : List (BanType × ErrorPattern) :=
  [ (BanType.spam,
      { keywords := ["spam", "rate limit", "too many", "blocked temporarily",
                     "429", "rate_limit"]
        weight := 1
        confidence := 17/20 }),
    (BanType.violation,
      { keywords := ["violation", "terms", "policy", "forbidden", "403",
                     "401", "unauthorized"]
        weight := 6/5
        confidence := 9/10 }),
    (BanType.permanent,
      { keywords := ["permanently", "terminated", "deleted", "404",
                     "banned from using", "account_deleted"]
        weight := 3/2
        confidence := 19/20 }) ]

/-- Row of the table for a given ban type (helper for stating theorems). -/
def patternFor (bt : BanType) : ErrorPattern :=
  match (ERROR_PATTERNS.find? (fun p => p.1 == bt)) with
  | some p => p.2
  | Option.none => { keywords := [], weight := 0, confidence := 0 }

/-! ### Classifier (`MLPatternDetector`) -/

/-- One element of `result.diagnostics.errorDetails`.  `code` is `none`
when the JS value is `null`/absent; `timestamp` is `none` for the one
entry pushed without a timestamp (the FATAL entry of `validate`'s catch
block). -/
structure ErrorDetail where
  stage : String
  error : String
  code : Option String
  timestamp : Option Nat
  deriving DecidableEq, Repr

/-- JS object key of an error code: `null` stringifies to `"null"` when
used as a key of `codeCounts`. -/
def codeKeyStr : Option String → String
  | some s => s
  | Option.none => "null"

/-- First-occurrence deduplication, matching the insertion order of the
keys of the `codeCounts` object.  (JS additionally iterates integer-like
keys first in numeric order; only the *length* of the resulting pattern
list is ever consumed by the scorer, so the order is immaterial.) -/
def firstDedup (l : List String) : List String :=
  l.foldl (fun acc x => if acc.contains x then acc else acc ++ [x]) []

/-- `MLPatternDetector._identifyFailurePatterns`. -/
def identifyFailurePatterns (errorDetails : List ErrorDetail) : List String :=
  let codes := errorDetails.map (fun e => codeKeyStr e.code)
  let base := if 3 ≤ errorDetails.length then ["sequential_failures"] else []
  base ++ (firstDedup codes).filterMap
    (fun c => if 2 ≤ codes.count c then some ("repeated_" ++ c) else Option.none)

/-- The feature record built by `MLPatternDetector._extractFeatures`
(minus the unused `timing` field, see module docstring). -/
structure Features where
  errorText : String
  errorCodes : List String
  errorCount : Nat
  successRate : ℚ
  failurePatterns : List String
  deriving DecidableEq, Repr

/-- `MLPatternDetector._extractFeatures`.  `probeResults.successRate || 0`
forwards the given rate; the one falsy number, `0`, is its own default,
and the `NaN` produced by a `0/0` caller-side division is modelled by the
rational convention `0/0 = 0`, which coincides with `NaN || 0 = 0`. -/
def extractFeatures (errorDetails : List ErrorDetail) (successRate : ℚ) :
    Features :=
  { errorText :=
      String.intercalate " " (errorDetails.map (fun e => toLowerStr e.error))
    errorCodes := errorDetails.filterMap (fun e =>
      match e.code with
      | some s => if s = "" then Option.none else some s
      | Option.none => Option.none)
    errorCount := errorDetails.length
    successRate := successRate
    failurePatterns := identifyFailurePatterns errorDetails }

/-- The per-candidate score record built by
`MLPatternDetector._calculateScores`. -/
structure ScoreData where
  raw : ℚ
  normalized : ℚ
  confidence : ℚ
  matchCount : Nat
  deriving DecidableEq, Repr

/-- Score of one candidate ban type
(`MLPatternDetector._calculateScores`, loop body). -/
def scoreFor (f : Features) (pat : ErrorPattern) : ScoreData :=
  let kwMatches := pat.keywords.filter (fun kw => jsIncludes f.errorText kw)
  let codeMatches :=
    f.errorCodes.filter (fun c => pat.keywords.contains (toLowerStr c))
  let score0 : ℚ :=
    pat.weight * kwMatches.length + pat.weight * (3/2) * codeMatches.length
  let score1 := if f.successRate < 3/10 then score0 + 1/2 else score0
  let score2 :=
    if 2 < f.failurePatterns.length then
      score1 + (3/10) * f.failurePatterns.length
    else score1
  let matchCount := kwMatches.length + codeMatches.length
  { raw := score2
    normalized := min (score2 / 5) 1
    confidence := if 0 < matchCount then pat.confidence else 0
    matchCount := matchCount }

/-- `MLPatternDetector._calculateScores`. -/
def calculateScores (f : Features) : List (BanType × ScoreData) :=
  ERROR_PATTERNS.map (fun p => (p.1, scoreFor f p.2))

/-- The prediction returned by `MLPatternDetector._makePrediction`:
either the below-threshold result `{type: NONE, confidence: 0.5}` (whose
`score`/`matchCount` fields are absent) or the winning candidate. -/
structure Prediction where
  type : BanType
  confidence : ℚ
  score : Option ℚ
  matchCount : Option Nat
  deriving DecidableEq, Repr

/-- Accumulator of the selection loop of `_makePrediction`
(`bestMatch`); its initial value carries no `matchCount`. -/
structure BestMatch where
  type : BanType
  score : ℚ
  confidence : ℚ
  matchCount : Option Nat
  deriving DecidableEq, Repr

/-- `MLPatternDetector._makePrediction`. -/
def makePrediction (scores : List (BanType × ScoreData)) : Prediction :=
  let best := scores.foldl
    (fun (best : BestMatch) p =>
      if best.score < p.2.normalized then
        { type := p.1, score := p.2.normalized, confidence := p.2.confidence
          matchCount := some p.2.matchCount }
      else best)
    { type := BanType.none, score := 0, confidence := 0,
      matchCount := Option.none }
  if best.score < 3/10 then
    { type := BanType.none, confidence := 1/2, score := Option.none,
      matchCount := Option.none }
  else
    { type := best.type, confidence := best.confidence,
      score := some best.score, matchCount := best.matchCount }

/-- `MLPatternDetector.analyze` (the history update does not affect the
returned prediction and is not modelled). -/
def analyze (errorDetails : List ErrorDetail) (successRate : ℚ) :
    Prediction :=
  makePrediction (calculateScores (extractFeatures errorDetails successRate))

/-! ### Cache (`ValidationCache`) -/

/-- One cache entry as stored by `ValidationCache.set`. -/
structure CacheEntry (α : Type) where
  data : α
  timestamp : Nat
  lastAccess : Nat
  accessCount : Nat
  deriving DecidableEq, Repr

/-- The `ValidationCache` state.  `entries` models the JS `Map` as an
insertion-ordered association list (a JS `Map` iterates in insertion
order, and `Map.set` on an existing key keeps its original position). -/
structure VCache (α : Type) where
  entries : List (String × CacheEntry α)
  ttl : Nat
  maxSize : Nat
  hits : Nat
  misses : Nat
  deriving DecidableEq, Repr

/-- JS `Map.set`: overwrite in place if the key is present, else append. -/
def mapSet {α : Type} : List (String × α) → String → α → List (String × α)
  | [], k, v => [(k, v)]
  | (k', v') :: t, k, v =>
    if k' = k then (k, v) :: t else (k', v') :: mapSet t k v

/-- JS `Map.delete`: remove the entry with the given key (a JS `Map`
holds each key at most once). -/
def mapDelete {α : Type} : List (String × α) → String → List (String × α)
  | [], _ => []
  | (k', v') :: t, k => if k' = k then t else (k', v') :: mapDelete t k

/-- The scanning loop of `ValidationCache._evictLRU`: `oldest` starts as
`null` (`none`) and is replaced by any key whose entry has a strictly
smaller `lastAccess` than the best seen so far (`oldestTime` starts at
`Infinity`, so the first entry always wins against it). -/
def evictScan {α : Type} :
    List (String × CacheEntry α) → Option (String × Nat) → Option String
  | [], best => best.map Prod.fst
  | (k, e) :: t, best =>
    match best with
    | Option.none => evictScan t (some (k, e.lastAccess))
    | some (bk, bt) =>
      if e.lastAccess < bt then evictScan t (some (k, e.lastAccess))
      else evictScan t (some (bk, bt))

/-- `ValidationCache._evictLRU`.  The final `if (oldest)` is a JS
truthiness test: both `null` (empty cache) and the empty-string key are
falsy, in which case nothing is deleted. -/
def evictLRU {α : Type} (c : VCache α) : VCache α :=
  match evictScan c.entries Option.none with
  | some k => if k = "" then c else { c with entries := mapDelete c.entries k }
  | Option.none => c

/-- `ValidationCache.set` at clock value `now` (both `Date.now()` reads
inside `set` happen in the same millisecond model tick). -/
def cacheSet {α : Type} (c : VCache α) (k : String) (d : α) (now : Nat) :
    VCache α :=
  let c1 := if c.maxSize ≤ c.entries.length then evictLRU c else c
  { c1 with
    entries := mapSet c1.entries k
      { data := d, timestamp := now, lastAccess := now, accessCount := 1 } }

/-- A fresh cache (constructor with `maxSize` option `C`; the `|| 1000`
defaulting of falsy option values is applied by the caller). -/
def emptyCache (α : Type) (ttl maxSize : Nat) : VCache α :=
  { entries := [], ttl := ttl, maxSize := maxSize, hits := 0, misses := 0 }

/-- A sequence of `set` calls, each given as `(key, data, now)`. -/
def setSeq {α : Type} (c : VCache α) : List (String × α × Nat) → VCache α
  | [] => c
  | (k, d, t) :: rest => setSeq (cacheSet c k d t) rest

/-! ### Rate limiter (`RateLimiter`) -/

/-- `RateLimiter` configuration. -/
structure RateLimiter where
  maxRequests : Nat
  windowMs : Nat
  deriving DecidableEq, Repr

/-- The pruning filter of `acquire`:
`this.requests.filter(time => now - time < this.windowMs)`.  Timestamps
are `Nat` millisecond counts; in every reachable state they are `≤ now`,
where JS and truncated `Nat` subtraction agree. -/
def prune (windowMs now : Nat) (reqs : List Nat) : List Nat :=
  reqs.filter (fun t => now - t < windowMs)

/-- One attempt of `RateLimiter.acquire` at clock value `now`: the state
is first reassigned to the pruned list; if the limit is reached the call
computes a wait and retries later (no commit in this step), otherwise
`now` is appended and the call returns.  Returns the new state and
whether a timestamp was committed.  The JS fall-through that appends
despite a full list when `waitTime ≤ 0` is unreachable for
`maxRequests ≥ 1`: every retained timestamp satisfies
`now - time < windowMs`, so the computed wait is positive (and the
`maxRequests = 0` path compares against `NaN`, outside this model). -/
def acquireStep (cfg : RateLimiter) (reqs : List Nat) (now : Nat) :
    List Nat × Bool :=
  let pruned := prune cfg.windowMs now reqs
  if cfg.maxRequests ≤ pruned.length then (pruned, false)
  else (pruned ++ [now], true)

/-- The wait computed by a blocked `acquire` attempt:
`windowMs - (now - oldestRequest)` where `oldestRequest` is the head of
the (already reassigned, hence pruned) request list. -/
def acquireWait (cfg : RateLimiter) (reqs : List Nat) (now : Nat) : Nat :=
  cfg.windowMs - (now - (prune cfg.windowMs now reqs).headD 0)

/-- Run a sequence of `acquire` attempts at the given (monotone) clock
values, starting from state `reqs`, collecting committed timestamps into
`committed`. -/
def runAcquires (cfg : RateLimiter) :
    List Nat → List Nat → List Nat → List Nat × List Nat
  | reqs, committed, [] => (reqs, committed)
  | reqs, committed, now :: rest =>
    match acquireStep cfg reqs now with
    | (reqs', true) => runAcquires cfg reqs' (committed ++ [now]) rest
    | (reqs', false) => runAcquires cfg reqs' committed rest

/-- Number of committed timestamps inside the half-open window
`(a, a + W]`. -/
def windowCount (W : Nat) (committed : List Nat) (a : Nat) : Nat :=
  (committed.filter (fun t => decide (a < t) && decide (t ≤ a + W))).length

/-! ### Validator pipeline (`WhatsAppValidator`) -/

/-- The configuration fields of `WhatsAppValidator` that the pipeline
stages read.  `parallelProbes` only changes the interleaving of result
mutations (see module docstring); `plugins` defaults to `[]` and no
plugin is modelled; cache / rate-limiter / analytics toggles concern
components modelled separately. -/
structure Config where
  timeout : Nat
  enablePresenceCheck : Bool
  retryOnFailure : Bool
  maxRetries : Nat
  enableMLDetection : Bool
  deriving DecidableEq, Repr

/-- Raw payload of a fulfilled remote call.  `pStatus` is the
`fetchStatus` object shape `{status, setAt}`; `pRaw b` is any other
payload, `b` being its JS truthiness (`null` gives `pRaw false`). -/
inductive Payload where
  | pStatus (status : Option String) (setAt : Option Nat)
  | pRaw (truthy : Bool)
  deriving DecidableEq, Repr

/-- JS truthiness of a payload (`if (probeResult)`): any object is
truthy, `null`/`undefined` are falsy. -/
def Payload.isTruthy : Payload → Bool
  | .pStatus _ _ => true
  | .pRaw b => b

/-- Environment of one validation: the outcome of the registration call
(`onWhatsApp`, a list of `{exists}` flags on fulfilment, an error message
on rejection — a timeout is the rejection `"Operation timeout"`), the
outcome of each probe attempt (`probe name attempt`, attempt `0` being
the initial call and `k+1` the `k`-th retry), and the clock value used
for every `Date.now()` read of this validation. -/
structure Env where
  registration : Except String (List Bool)
  probe : String → Nat → Except String Payload
  now : Nat

/-- Truth value of `check && check.length > 0 && check[0].exists`. -/
def regFirst : List Bool → Bool
  | [] => false
  | b :: _ => b

/-- The `result.ban` sub-object. -/
structure BanInfo where
  isBanned : Bool
  type : BanType
  detectionMethods : List String
  mlConfidence : Option ℚ
  deriving DecidableEq, Repr

/-- The `result.review` sub-object. -/
structure ReviewInfo where
  available : Bool
  type : ReviewType
  estimatedTime : Option String
  deriving DecidableEq, Repr

/-- The `result.account` sub-object. -/
structure AccountInfo where
  hasStatus : Bool
  statusText : Option String
  hasProfilePicture : Bool
  isBusinessAccount : Bool
  age : AccountAge
  presenceAvailable : Bool
  deriving DecidableEq, Repr

/-- One element of `result.diagnostics.probeResults`. -/
structure ProbeRecord where
  name : String
  status : ProbeStatus
  duration : Nat
  error : Option String
  deriving DecidableEq, Repr

/-- The `result.diagnostics` sub-object (field names `probsExecuted` /
`probsSuccessful` as spelled in the source). -/
structure Diagnostics where
  responseTime : Option Nat
  probsExecuted : Nat
  probsSuccessful : Nat
  errorDetails : List ErrorDetail
  fallbacksUsed : List String
  probeResults : List ProbeRecord
  deriving DecidableEq, Repr

/-- The `ValidationResult` accumulator object. -/
structure Result where
  number : String
  jid : String
  timestamp : Nat
  isRegistered : Bool
  isActive : Bool
  ban : BanInfo
  review : ReviewInfo
  account : AccountInfo
  diagnostics : Diagnostics
  recommendations : List String
  summary : String
  deriving DecidableEq, Repr

/-- `_normalizeJID`: strip all non-digits and append the domain. -/
def normalizeJID (phoneNumber : String) : String :=
  ⟨phoneNumber.data.filter Char.isDigit⟩ ++ "@s.whatsapp.net"

/-- The cache key of `validate`: the template literal
`validate:${phoneNumber}` built from the raw input argument. -/
def cacheKeyOf (phoneNumber : String) : String :=
  "validate:" ++ phoneNumber

/-- `_createResultObject`. -/
def createResultObject (phoneNumber jid : String) (now : Nat) : Result :=
  { number := phoneNumber
    jid := jid
    timestamp := now
    isRegistered := false
    isActive := false
    ban := { isBanned := false, type := BanType.none, detectionMethods := [],
             mlConfidence := Option.none }
    review := { available := false, type := ReviewType.none,
                estimatedTime := Option.none }
    account := { hasStatus := false, statusText := Option.none,
                 hasProfilePicture := false, isBusinessAccount := false,
                 age := AccountAge.unknown, presenceAvailable := false }
    diagnostics := { responseTime := Option.none, probsExecuted := 0,
                     probsSuccessful := 0, errorDetails := [],
                     fallbacksUsed := [], probeResults := [] }
    recommendations := []
    summary := "" }

/-- `_extractErrorCode`. -/
def extractErrorCode (error : String) : String :=
  if jsIncludes error "403" then "403"
  else if jsIncludes error "401" then "401"
  else if jsIncludes error "404" then "404"
  else if jsIncludes error "429" then "429"
  else if jsIncludes error "500" then "500"
  else if jsIncludes (toLowerStr error) "timeout" then "TIMEOUT"
  else if jsIncludes (toLowerStr error) "forbidden" then "403"
  else "UNKNOWN"

/-- `_isFatalError`. -/
def isFatalError (error : String) : Bool :=
  let s := toLowerStr error
  jsIncludes s "404" || jsIncludes s "permanently" || jsIncludes s "deleted" ||
    jsIncludes s "terminated"

/-- `_recordError`. -/
def recordError (stage error : String) (now : Nat) (r : Result) : Result :=
  { r with diagnostics.errorDetails :=
      r.diagnostics.errorDetails ++
        [{ stage := stage, error := error, code := some (extractErrorCode error),
           timestamp := some now }] }

/-- A probe descriptor of `_buildProbeList` (the `fn` closure is resolved
through `Env.probe` by name). -/
structure Probe where
  name : String
  priority : Nat
  timeoutMs : Nat
  deriving DecidableEq, Repr

/-- Insertion step of a stable insertion sort by ascending priority. -/
def insertByPriority (p : Probe) : List Probe → List Probe
  | [] => [p]
  | q :: t =>
    if q.priority ≤ p.priority then q :: insertByPriority p t else p :: q :: t

/-- Stable sort by ascending priority, modelling
`probes.sort((a, b) => a.priority - b.priority)`. -/
def sortByPriority : List Probe → List Probe
  | [] => []
  | p :: t => insertByPriority p (sortByPriority t)

/-- `_buildProbeList`. -/
def buildProbeList (cfg : Config) : List Probe :=
  let probes : List Probe :=
    [ { name := "status", priority := 1, timeoutMs := cfg.timeout },
      { name := "profile_picture", priority := 2, timeoutMs := cfg.timeout },
      { name := "business_profile", priority := 3, timeoutMs := cfg.timeout } ]
  let probes :=
    if cfg.enablePresenceCheck then
      probes ++ [{ name := "presence", priority := 4,
                   timeoutMs := cfg.timeout + 3000 }]
    else probes
  sortByPriority probes

/-- `_processProbeResult`.  `probeResult?.status` is truthy only for a
non-empty status string; `probeResult.setAt` is truthy only for a
non-zero number; account age thresholds compare the elapsed time against
30 and 180 days in milliseconds. -/
def processProbeResult (probeName : String) (payload : Payload) (now : Nat)
    (r : Result) : Result :=
  if probeName = "status" then
    match payload with
    | .pStatus (some s) setAt =>
      if s = "" then r
      else
        let r1 := { r with
          account.hasStatus := true
          account.statusText := some s
          ban.detectionMethods := r.ban.detectionMethods ++ ["status_accessible"] }
        match setAt with
        | some t =>
          if t = 0 then r1
          else
            { r1 with account.age :=
                if now - t * 1000 < 30 * 86400000 then AccountAge.new
                else if now - t * 1000 < 180 * 86400000 then AccountAge.medium
                else AccountAge.old }
        | Option.none => r1
    | _ => r
  else if probeName = "profile_picture" then
    if payload.isTruthy then
      { r with account.hasProfilePicture := true
               ban.detectionMethods :=
                 r.ban.detectionMethods ++ ["profile_picture_accessible"] }
    else r
  else if probeName = "business_profile" then
    if payload.isTruthy then
      { r with account.isBusinessAccount := true
               ban.detectionMethods :=
                 r.ban.detectionMethods ++ ["business_account_verified"] }
    else r
  else if probeName = "presence" then
    if payload.isTruthy then
      { r with account.presenceAvailable := true
               ban.detectionMethods :=
                 r.ban.detectionMethods ++ ["presence_available"] }
    else r
  else r

/-- The retry loop of `_executeProbe`
(`for (let retry = 0; retry < this.config.maxRetries; retry++)`), with
`fuel = maxRetries - retry` remaining iterations.  A successful retry
processes the payload, increments `probsSuccessful` and breaks; the error
of the last retry is recorded under `${probe.name}_final_retry`. -/
def retryLoop (cfg : Config) (env : Env) (p : Probe) :
    Nat → Nat → Result → Result
  | 0, _, r => r
  | fuel + 1, retry, r =>
    let r1 := { r with diagnostics.fallbacksUsed :=
        r.diagnostics.fallbacksUsed ++ [p.name ++ "_retry_" ++ toString (retry + 1)] }
    match env.probe p.name (retry + 1) with
    | .ok payload =>
      let r2 := processProbeResult p.name payload env.now r1
      { r2 with diagnostics.probsSuccessful := r2.diagnostics.probsSuccessful + 1 }
    | .error e =>
      let r2 :=
        if retry = cfg.maxRetries - 1 then
          recordError (p.name ++ "_final_retry") e env.now r1
        else r1
      retryLoop cfg env p fuel (retry + 1) r2

/-- `_executeProbe`.  Probe durations are differences of `Date.now()`
reads under the constant-clock model, hence `0`. -/
def executeProbe (cfg : Config) (env : Env) (p : Probe) (r : Result) :
    Result :=
  let r0 := { r with diagnostics.probsExecuted := r.diagnostics.probsExecuted + 1 }
  match env.probe p.name 0 with
  | .ok payload =>
    let r1 := processProbeResult p.name payload env.now r0
    let r2 := { r1 with
      diagnostics.probsSuccessful := r1.diagnostics.probsSuccessful + 1 }
    { r2 with diagnostics.probeResults :=
        r2.diagnostics.probeResults ++
          [{ name := p.name, status := ProbeStatus.success, duration := 0,
             error := Option.none }] }
  | .error e =>
    let r1 := recordError p.name e env.now r0
    let r2 := { r1 with diagnostics.probeResults :=
        r1.diagnostics.probeResults ++
          [{ name := p.name,
             status := if isFatalError e then ProbeStatus.failed
                       else ProbeStatus.timeout,
             duration := 0, error := some e }] }
    if cfg.retryOnFailure && !isFatalError e then
      retryLoop cfg env p cfg.maxRetries 0 r2
    else r2

/-- `_executeProbes` (sequential serialization, see module docstring). -/
def executeProbes (cfg : Config) (env : Env) (r : Result) : Result :=
  (buildProbeList cfg).foldl (fun r p => executeProbe cfg env p r) r

/-- `_checkRegistration`. -/
def checkRegistration (env : Env) (r : Result) : Result :=
  match env.registration with
  | .ok l =>
    let reg := regFirst l
    let r1 := { r with isRegistered := reg, isActive := reg }
    if reg then
      { r1 with
        ban.detectionMethods := r1.ban.detectionMethods ++ ["registration_verified"]
        diagnostics.probsExecuted := r1.diagnostics.probsExecuted + 1
        diagnostics.probsSuccessful := r1.diagnostics.probsSuccessful + 1 }
    else r1
  | .error e => recordError "registration" e env.now r

/-- Concatenated lowercase error text of a result's error details (the
`errorText` local of `_analyzePatterns`, same computation as
`_extractFeatures`). -/
def errorTextOf (r : Result) : String :=
  String.intercalate " "
    (r.diagnostics.errorDetails.map (fun e => toLowerStr e.error))

/-- Match test of one pattern-table row against an error text (the
`matchCount > 0` test of the `_analyzePatterns` loop: some keyword of the
row occurs in the text). -/
def patternMatches (errorText : String) (p : BanType × ErrorPattern) : Bool :=
  p.2.keywords.any (fun kw => jsIncludes errorText (toLowerStr kw))

/-- `_analyzePatterns` (fallback when ML detection is disabled); the
`break` on the first matching row makes the loop a `find?`. -/
def analyzePatterns (r : Result) : Result :=
  let r1 :=
    match ERROR_PATTERNS.find? (patternMatches (errorTextOf r)) with
    | some p =>
      { r with
        ban.isBanned := true
        ban.type := p.1
        ban.detectionMethods :=
          r.ban.detectionMethods ++ ["pattern_match_" ++ p.1.str] }
    | Option.none => r
  if r1.diagnostics.probsSuccessful = 0 && r1.isRegistered then
    let r2 := { r1 with ban.isBanned := true }
    if r2.ban.type = BanType.none then
      { r2 with
        ban.type := BanType.violation
        ban.detectionMethods :=
          r2.ban.detectionMethods ++ ["zero_successful_probes"] }
    else r2
  else r1

/-- `_analyzeReviewOptions`. -/
def analyzeReviewOptions (r : Result) : Result :=
  if !r.ban.isBanned then
    { r with recommendations :=
        r.recommendations ++
          ["Account is functioning normally",
           "Maintain natural usage patterns"] }
  else
    match r.ban.type with
    | BanType.spam =>
      { r with
        review := { available := true, type := ReviewType.selfAppeal,
                    estimatedTime := some "24-48 hours" }
        recommendations :=
          r.recommendations ++
            ["Submit self-appeal through WhatsApp app",
             "Avoid bulk messaging for one week",
             "Review WhatsApp business policies"] }
    | BanType.violation =>
      { r with
        review := { available := true, type := ReviewType.supportRequired,
                    estimatedTime := some "3-7 days" }
        recommendations :=
          r.recommendations ++
            ["Contact WhatsApp support directly",
             "Prepare identity verification",
             "Review terms of service violations"] }
    | BanType.permanent =>
      { r with
        review := { available := false, type := ReviewType.none,
                    estimatedTime := Option.none }
        recommendations :=
          r.recommendations ++
            ["Ban is permanent - Consider new number",
             "Ensure compliance before new account"] }
    | BanType.none => r

/-- `_finalizeResult`.  The source passes `Date.now()` as `startTime`, so
under the constant-clock model the recorded response time is `0`. -/
def finalizeResult (r : Result) : Result :=
  { r with
    diagnostics.responseTime := some 0
    summary :=
      if r.isRegistered then
        match r.ban.type with
        | BanType.none => "Active and verified"
        | BanType.spam => "Spam restrictions detected"
        | BanType.violation => "Policy violation detected"
        | BanType.permanent => "Permanent ban confirmed"
      else "Not registered or permanently banned" }

/-- Success rate handed to the ML detector:
`result.diagnostics.probsSuccessful / result.diagnostics.probsExecuted`
(the rational convention `q / 0 = 0` agrees with the JS
`NaN || 0 = 0` defaulting inside `_extractFeatures`). -/
def mlRate (r : Result) : ℚ :=
  (r.diagnostics.probsSuccessful : ℚ) / (r.diagnostics.probsExecuted : ℚ)

/-- Stage 3 of `_executePipeline`: ML-powered pattern analysis if the
detector is enabled, else the `_analyzePatterns` fallback.  A non-`none`
prediction marks the account banned, records the confidence and tags the
detection method. -/
def classifyStage (cfg : Config) (env : Env) (r2 : Result) : Result :=
  if cfg.enableMLDetection then
    let pred := analyze r2.diagnostics.errorDetails (mlRate r2)
    if pred.type ≠ BanType.none then
      { r2 with
        ban.isBanned := true
        ban.type := pred.type
        ban.mlConfidence := some pred.confidence
        ban.detectionMethods :=
          r2.ban.detectionMethods ++ ["ml_pattern_detection"] }
    else r2
  else analyzePatterns r2

/-- `_executePipeline` (plugin hooks are absent in the default
configuration and not modelled). -/
def executePipeline (cfg : Config) (env : Env) (r : Result) : Result :=
  let r1 := checkRegistration env r
  if !r1.isRegistered then
    finalizeResult
      { r1 with
        ban.isBanned := true
        ban.type := BanType.permanent
        summary := "Not registered or permanently banned" }
  else
    let r2 := executeProbes cfg env r1
    finalizeResult (analyzeReviewOptions (classifyStage cfg env r2))

/-- One full cache-missing `validate` run on a fresh result object. -/
def validateRun (cfg : Config) (env : Env) (phoneNumber : String) : Result :=
  executePipeline cfg env
    (createResultObject phoneNumber (normalizeJID phoneNumber) env.now)

/-- The `catch` block of `validate`: the partially filled result gets the
critical summary and a single additional FATAL-coded error entry (pushed
without a timestamp field), and is returned instead of rethrowing. -/
def validateCatch (r : Result) (e : String) : Result :=
  { r with
    summary := "Critical validation error"
    diagnostics.errorDetails :=
      r.diagnostics.errorDetails ++
        [{ stage := "critical", error := e, code := some "FATAL",
           timestamp := Option.none }] }

/-- The `try`/`catch` skeleton of `validate` around an arbitrary pipeline
effect: on a throw the mutated-so-far result (carried by the `error`
case) is repaired by `validateCatch` and returned. -/
def runValidate (pipelineEff : Result → Except (String × Result) Result)
    (phoneNumber : String) (now : Nat) : Result :=
  let result := createResultObject phoneNumber (normalizeJID phoneNumber) now
  match pipelineEff result with
  | .ok r => r
  | .error (e, rPartial) => validateCatch rPartial e

/-! ### Frame and counting lemmas for the pipeline stages -/

/-- Fulfilment test of a modelled remote call. -/
def exOk {α : Type} : Except String α → Bool
  | .ok _ => true
  | .error _ => false

/-- Whether some attempt among `start, start+1, …, start+fuel-1` of the
named probe is fulfilled. -/
def anyOkFrom (env : Env) (pname : String) : Nat → Nat → Bool
  | _, 0 => false
  | start, fuel + 1 =>
    exOk (env.probe pname start) || anyOkFrom env pname (start + 1) fuel

/-- Whether `_executeProbe` ends up incrementing `probsSuccessful` for
this probe: either the initial attempt is fulfilled, or it fails
non-fatally with retries enabled and some retry attempt is fulfilled. -/
def probeSucceeds (cfg : Config) (env : Env) (p : Probe) : Bool :=
  match env.probe p.name 0 with
  | .ok _ => true
  | .error e =>
    cfg.retryOnFailure && !isFatalError e && anyOkFrom env p.name 1 cfg.maxRetries

@[simp] theorem recordError_probsExecuted (s e : String) (now : Nat)
    (r : Result) :
    (recordError s e now r).diagnostics.probsExecuted =
      r.diagnostics.probsExecuted := rfl

@[simp] theorem recordError_probsSuccessful (s e : String) (now : Nat)
    (r : Result) :
    (recordError s e now r).diagnostics.probsSuccessful =
      r.diagnostics.probsSuccessful := rfl

@[simp] theorem recordError_ban (s e : String) (now : Nat) (r : Result) :
    (recordError s e now r).ban = r.ban := rfl

@[simp] theorem recordError_review (s e : String) (now : Nat) (r : Result) :
    (recordError s e now r).review = r.review := rfl

@[simp] theorem recordError_isRegistered (s e : String) (now : Nat)
    (r : Result) :
    (recordError s e now r).isRegistered = r.isRegistered := rfl

@[simp] theorem recordError_errorDetails (s e : String) (now : Nat)
    (r : Result) :
    (recordError s e now r).diagnostics.errorDetails =
      r.diagnostics.errorDetails ++
        [{ stage := s, error := e, code := some (extractErrorCode e),
           timestamp := some now }] := rfl

theorem processProbeResult_frame (n : String) (p : Payload) (now : Nat)
    (r : Result) :
    (processProbeResult n p now r).diagnostics = r.diagnostics ∧
      (processProbeResult n p now r).review = r.review ∧
      (processProbeResult n p now r).ban.isBanned = r.ban.isBanned ∧
      (processProbeResult n p now r).ban.type = r.ban.type ∧
      (processProbeResult n p now r).ban.mlConfidence = r.ban.mlConfidence ∧
      (processProbeResult n p now r).isRegistered = r.isRegistered := by
  rcases p with ⟨_ | s, _ | t⟩ | b <;> dsimp only [processProbeResult] <;>
    split_ifs <;> exact ⟨rfl, rfl, rfl, rfl, rfl, rfl⟩

@[simp] theorem processProbeResult_diagnostics (n : String) (p : Payload)
    (now : Nat) (r : Result) :
    (processProbeResult n p now r).diagnostics = r.diagnostics :=
  (processProbeResult_frame n p now r).1

@[simp] theorem processProbeResult_review (n : String) (p : Payload)
    (now : Nat) (r : Result) :
    (processProbeResult n p now r).review = r.review :=
  (processProbeResult_frame n p now r).2.1

@[simp] theorem processProbeResult_ban_isBanned (n : String) (p : Payload)
    (now : Nat) (r : Result) :
    (processProbeResult n p now r).ban.isBanned = r.ban.isBanned :=
  (processProbeResult_frame n p now r).2.2.1

@[simp] theorem processProbeResult_ban_type (n : String) (p : Payload)
    (now : Nat) (r : Result) :
    (processProbeResult n p now r).ban.type = r.ban.type :=
  (processProbeResult_frame n p now r).2.2.2.1

@[simp] theorem processProbeResult_ban_mlConfidence (n : String) (p : Payload)
    (now : Nat) (r : Result) :
    (processProbeResult n p now r).ban.mlConfidence = r.ban.mlConfidence :=
  (processProbeResult_frame n p now r).2.2.2.2.1

@[simp] theorem processProbeResult_isRegistered (n : String) (p : Payload)
    (now : Nat) (r : Result) :
    (processProbeResult n p now r).isRegistered = r.isRegistered :=
  (processProbeResult_frame n p now r).2.2.2.2.2

theorem retryLoop_spec (cfg : Config) (env : Env) (p : Probe) :
    ∀ (fuel retry : Nat) (r : Result),
      (retryLoop cfg env p fuel retry r).diagnostics.probsExecuted =
          r.diagnostics.probsExecuted ∧
        (retryLoop cfg env p fuel retry r).diagnostics.probsSuccessful =
          r.diagnostics.probsSuccessful +
            (if anyOkFrom env p.name (retry + 1) fuel then 1 else 0) ∧
        (retryLoop cfg env p fuel retry r).ban.isBanned = r.ban.isBanned ∧
        (retryLoop cfg env p fuel retry r).ban.type = r.ban.type ∧
        (retryLoop cfg env p fuel retry r).ban.mlConfidence = r.ban.mlConfidence ∧
        (retryLoop cfg env p fuel retry r).review = r.review ∧
        (retryLoop cfg env p fuel retry r).isRegistered = r.isRegistered := by
  intro fuel
  induction fuel with
  | zero => intro retry r; simp [retryLoop, anyOkFrom]
  | succ fuel ih =>
    intro retry r
    cases h : env.probe p.name (retry + 1) with
    | ok payload =>
      simp [retryLoop, anyOkFrom, h, exOk]
    | error e =>
      by_cases he : retry = cfg.maxRetries - 1
      · have hih := ih (retry + 1)
          (recordError (p.name ++ "_final_retry") e env.now
            { r with diagnostics.fallbacksUsed :=
                r.diagnostics.fallbacksUsed ++
                  [p.name ++ "_retry_" ++ toString (retry + 1)] })
        simp only [retryLoop, anyOkFrom, h, he, if_true, exOk] at hih ⊢
        simp_all
      · have hih := ih (retry + 1)
          { r with diagnostics.fallbacksUsed :=
              r.diagnostics.fallbacksUsed ++
                [p.name ++ "_retry_" ++ toString (retry + 1)] }
        simp only [retryLoop, anyOkFrom, h, he, if_false, exOk] at hih ⊢
        simp_all

theorem executeProbe_spec (cfg : Config) (env : Env) (p : Probe) (r : Result) :
    (executeProbe cfg env p r).diagnostics.probsExecuted =
        r.diagnostics.probsExecuted + 1 ∧
      (executeProbe cfg env p r).diagnostics.probsSuccessful =
        r.diagnostics.probsSuccessful +
          (if probeSucceeds cfg env p then 1 else 0) ∧
      (executeProbe cfg env p r).ban.isBanned = r.ban.isBanned ∧
      (executeProbe cfg env p r).ban.type = r.ban.type ∧
      (executeProbe cfg env p r).ban.mlConfidence = r.ban.mlConfidence ∧
      (executeProbe cfg env p r).review = r.review ∧
      (executeProbe cfg env p r).isRegistered = r.isRegistered := by
  cases h : env.probe p.name 0 with
  | ok payload => simp [executeProbe, probeSucceeds, h]
  | error e =>
    by_cases hr : cfg.retryOnFailure = true ∧ isFatalError e = false
    · have hloop := retryLoop_spec cfg env p cfg.maxRetries 0
      simp only [executeProbe, probeSucceeds, h, hr.1, hr.2] at *
      simp_all
    · have hr' : (cfg.retryOnFailure && !isFatalError e) = false := by
        rcases Bool.eq_false_or_eq_true cfg.retryOnFailure with hb | hb <;>
          rcases Bool.eq_false_or_eq_true (isFatalError e) with hf | hf <;>
            simp_all
      simp [executeProbe, probeSucceeds, h, hr']

theorem executeProbesList_spec (cfg : Config) (env : Env) :
    ∀ (ps : List Probe) (r : Result),
      ((ps.foldl (fun r p => executeProbe cfg env p r) r)).diagnostics.probsExecuted =
          r.diagnostics.probsExecuted + ps.length ∧
        ((ps.foldl (fun r p => executeProbe cfg env p r) r)).diagnostics.probsSuccessful =
          r.diagnostics.probsSuccessful + ps.countP (probeSucceeds cfg env) ∧
        ((ps.foldl (fun r p => executeProbe cfg env p r) r)).ban.isBanned = r.ban.isBanned ∧
        ((ps.foldl (fun r p => executeProbe cfg env p r) r)).ban.type = r.ban.type ∧
        ((ps.foldl (fun r p => executeProbe cfg env p r) r)).ban.mlConfidence = r.ban.mlConfidence ∧
        ((ps.foldl (fun r p => executeProbe cfg env p r) r)).review = r.review ∧
        ((ps.foldl (fun r p => executeProbe cfg env p r) r)).isRegistered = r.isRegistered := by
  intro ps
  induction ps with
  | nil => intro r; simp
  | cons p t ih =>
    intro r
    have hp := executeProbe_spec cfg env p r
    have ht := ih (executeProbe cfg env p r)
    simp only [List.foldl_cons, List.countP_cons, List.length_cons] at *
    refine ⟨?_, ?_, ?_, ?_, ?_, ?_, ?_⟩ <;> simp_all <;> omega

theorem executeProbes_spec (cfg : Config) (env : Env) (r : Result) :
    (executeProbes cfg env r).diagnostics.probsExecuted =
        r.diagnostics.probsExecuted + (buildProbeList cfg).length ∧
      (executeProbes cfg env r).diagnostics.probsSuccessful =
        r.diagnostics.probsSuccessful +
          (buildProbeList cfg).countP (probeSucceeds cfg env) ∧
      (executeProbes cfg env r).ban.isBanned = r.ban.isBanned ∧
      (executeProbes cfg env r).ban.type = r.ban.type ∧
      (executeProbes cfg env r).ban.mlConfidence = r.ban.mlConfidence ∧
      (executeProbes cfg env r).review = r.review ∧
      (executeProbes cfg env r).isRegistered = r.isRegistered :=
  executeProbesList_spec cfg env (buildProbeList cfg) r

theorem checkRegistration_spec_ok_true (env : Env) (r : Result)
    (l : List Bool) (hreg : env.registration = .ok l) (hf : regFirst l = true) :
    (checkRegistration env r).diagnostics.probsExecuted =
        r.diagnostics.probsExecuted + 1 ∧
      (checkRegistration env r).diagnostics.probsSuccessful =
        r.diagnostics.probsSuccessful + 1 ∧
      (checkRegistration env r).isRegistered = true ∧
      (checkRegistration env r).ban.isBanned = r.ban.isBanned ∧
      (checkRegistration env r).ban.type = r.ban.type ∧
      (checkRegistration env r).ban.mlConfidence = r.ban.mlConfidence ∧
      (checkRegistration env r).review = r.review := by
  simp [checkRegistration, hreg, hf]

theorem checkRegistration_spec_ok_false (env : Env) (r : Result)
    (l : List Bool) (hreg : env.registration = .ok l) (hf : regFirst l = false) :
    checkRegistration env r =
      { r with isRegistered := false, isActive := false } := by
  simp [checkRegistration, hreg, hf]

theorem checkRegistration_spec_error (env : Env) (r : Result) (e : String)
    (hreg : env.registration = .error e) :
    checkRegistration env r = recordError "registration" e env.now r := by
  simp [checkRegistration, hreg]

theorem analyzePatterns_review (r : Result) :
    (analyzePatterns r).review = r.review := by
  unfold analyzePatterns
  cases hf : ERROR_PATTERNS.find? (patternMatches (errorTextOf r)) <;>
    simp only [hf] <;> dsimp only <;> repeat' split <;>
      first | rfl | (split <;> rfl)

theorem analyzePatterns_counters (r : Result) :
    (analyzePatterns r).diagnostics = r.diagnostics := by
  unfold analyzePatterns
  cases hf : ERROR_PATTERNS.find? (patternMatches (errorTextOf r)) <;>
    simp only [hf] <;> dsimp only <;> repeat' split <;>
      first | rfl | (split <;> rfl)

theorem analyzePatterns_not_banned (r : Result)
    (h : (analyzePatterns r).ban.isBanned = false) : analyzePatterns r = r := by
  unfold analyzePatterns at h ⊢
  cases hf : ERROR_PATTERNS.find? (patternMatches (errorTextOf r)) <;>
    simp only [hf] at h ⊢ <;> dsimp only at h ⊢ <;>
      split at h <;> (try split at h) <;> simp_all

theorem analyzeReviewOptions_ban (r : Result) :
    (analyzeReviewOptions r).ban = r.ban := by
  unfold analyzeReviewOptions
  split
  · rfl
  · cases hb : r.ban.type <;> simp only [hb]

theorem analyzeReviewOptions_counters (r : Result) :
    (analyzeReviewOptions r).diagnostics = r.diagnostics := by
  unfold analyzeReviewOptions
  split
  · rfl
  · cases hb : r.ban.type <;> simp only [hb]

theorem analyzeReviewOptions_not_banned (r : Result)
    (h : r.ban.isBanned = false) :
    (analyzeReviewOptions r).review = r.review := by
  unfold analyzeReviewOptions
  simp [h]

@[simp] theorem finalizeResult_ban (r : Result) :
    (finalizeResult r).ban = r.ban := rfl

@[simp] theorem finalizeResult_review (r : Result) :
    (finalizeResult r).review = r.review := rfl

@[simp] theorem finalizeResult_probsExecuted (r : Result) :
    (finalizeResult r).diagnostics.probsExecuted =
      r.diagnostics.probsExecuted := rfl

@[simp] theorem finalizeResult_probsSuccessful (r : Result) :
    (finalizeResult r).diagnostics.probsSuccessful =
      r.diagnostics.probsSuccessful := rfl

@[simp] theorem finalizeResult_isRegistered (r : Result) :
    (finalizeResult r).isRegistered = r.isRegistered := rfl

@[simp] theorem classifyStage_diagnostics (cfg : Config) (env : Env)
    (r : Result) : (classifyStage cfg env r).diagnostics = r.diagnostics := by
  unfold classifyStage
  split
  · dsimp only; split <;> rfl
  · exact analyzePatterns_counters r

@[simp] theorem classifyStage_review (cfg : Config) (env : Env) (r : Result) :
    (classifyStage cfg env r).review = r.review := by
  unfold classifyStage
  split
  · dsimp only; split <;> rfl
  · exact analyzePatterns_review r

theorem classifyStage_not_banned (cfg : Config) (env : Env) (r : Result)
    (h : (classifyStage cfg env r).ban.isBanned = false) :
    classifyStage cfg env r = r := by
  revert h
  unfold classifyStage
  split
  · dsimp only
    split
    · intro h; exact absurd h (by simp)
    · intro _; rfl
  · exact analyzePatterns_not_banned r

theorem checkRegistration_ban_review (env : Env) (r : Result) :
    (checkRegistration env r).ban.isBanned = r.ban.isBanned ∧
      (checkRegistration env r).ban.type = r.ban.type ∧
      (checkRegistration env r).ban.mlConfidence = r.ban.mlConfidence ∧
      (checkRegistration env r).review = r.review := by
  unfold checkRegistration
  cases env.registration with
  | ok l =>
    dsimp only
    split <;> exact ⟨rfl, rfl, rfl, rfl⟩
  | error e => exact ⟨rfl, rfl, rfl, rfl⟩

theorem checkRegistration_counters (env : Env) (r : Result) :
    ∃ d, (checkRegistration env r).diagnostics.probsExecuted =
        r.diagnostics.probsExecuted + d ∧
      (checkRegistration env r).diagnostics.probsSuccessful =
        r.diagnostics.probsSuccessful + d := by
  unfold checkRegistration
  cases env.registration with
  | ok l =>
    dsimp only
    split
    · exact ⟨1, rfl, rfl⟩
    · exact ⟨0, rfl, rfl⟩
  | error e => exact ⟨0, rfl, rfl⟩

theorem pipeline_probsLe (cfg : Config) (env : Env) (r : Result)
    (h : r.diagnostics.probsSuccessful ≤ r.diagnostics.probsExecuted) :
    (executePipeline cfg env r).diagnostics.probsSuccessful ≤
      (executePipeline cfg env r).diagnostics.probsExecuted := by
  obtain ⟨d, hde, hds⟩ := checkRegistration_counters env r
  have hp := executeProbes_spec cfg env (checkRegistration env r)
  have hc : (buildProbeList cfg).countP (probeSucceeds cfg env) ≤
      (buildProbeList cfg).length := List.countP_le_length _
  unfold executePipeline
  dsimp only
  split
  · simp only [finalizeResult_probsExecuted, finalizeResult_probsSuccessful]
    omega
  · simp only [finalizeResult_probsExecuted, finalizeResult_probsSuccessful,
      analyzeReviewOptions_counters, classifyStage_diagnostics]
    omega

theorem pipeline_ban_inv (cfg : Config) (env : Env) (r : Result)
    (hb : r.ban.isBanned = false) (ht : r.ban.type = BanType.none)
    (hr : r.review.available = false)
    (h : (executePipeline cfg env r).ban.isBanned = false) :
    (executePipeline cfg env r).review.available = false ∧
      (executePipeline cfg env r).ban.type = BanType.none := by
  revert h
  unfold executePipeline
  dsimp only
  split
  · intro h
    exact absurd h (by simp)
  · intro h
    have hcr := checkRegistration_ban_review env r
    have hp := executeProbes_spec cfg env (checkRegistration env r)
    have hcs : (classifyStage cfg env
        (executeProbes cfg env (checkRegistration env r))).ban.isBanned
          = false := by
      simpa [analyzeReviewOptions_ban] using h
    have hid := classifyStage_not_banned cfg env _ hcs
    constructor
    · have haro := analyzeReviewOptions_not_banned
        (classifyStage cfg env (executeProbes cfg env (checkRegistration env r)))
        hcs
      rw [finalizeResult_review, haro, classifyStage_review,
        hp.2.2.2.2.2.1, hcr.2.2.2]
      exact hr
    · rw [finalizeResult_ban, analyzeReviewOptions_ban, hid,
        hp.2.2.2.1, hcr.2.1]
      exact ht

/-! ### Concrete fixtures used by the witness theorems -/

/-- A configuration with every modelled feature enabled. -/
def cfgFix : Config :=
  { timeout := 8000, enablePresenceCheck := true, retryOnFailure := true,
    maxRetries := 2, enableMLDetection := true }

/-- Environment where every remote call succeeds and the account exists. -/
def envAllOk : Env :=
  { registration := .ok [true], probe := fun _ _ => .ok (.pRaw true), now := 0 }

/-- Environment where the registration check reports non-existence. -/
def envNotFound : Env :=
  { registration := .ok [false], probe := fun _ _ => .ok (.pRaw true), now := 0 }

/-- Environment where the registration call itself fails. -/
def envRegError : Env :=
  { registration := .error "boom 500", probe := fun _ _ => .ok (.pRaw true),
    now := 0 }

/-- A fresh result object for a fixed number. -/
def rFix : Result :=
  createResultObject "201234567890" (normalizeJID "201234567890") 0

/-! ### Claims -/

/-- C1: for every account whose registration check reports not-exists, the
result of `validate` has `ban.isBanned = true`, `ban.type = Permanent`,
`review.available = false`, summary
"Not registered or permanently banned", and `diagnostics.probsExecuted`
unchanged from its pre-probe value 0: the probing stage and the
classifier never run. -/
theorem claim1_unregistered_terminal (cfg : Config) (env : Env)
    (phone : String) (l : List Bool)
    (hreg : env.registration = .ok l) (hne : regFirst l = false) :
    (validateRun cfg env phone).ban.isBanned = true ∧
      (validateRun cfg env phone).ban.type = BanType.permanent ∧
      (validateRun cfg env phone).review.available = false ∧
      (validateRun cfg env phone).summary =
        "Not registered or permanently banned" ∧
      (validateRun cfg env phone).diagnostics.probsExecuted = 0 := by
  have hcr := checkRegistration_spec_ok_false env
    (createResultObject phone (normalizeJID phone) env.now) l hreg hne
  unfold validateRun executePipeline
  rw [hcr]
  simp [finalizeResult, createResultObject]

/-- Witness for C1 at a concrete not-registered environment. -/
theorem claim1_witness :
    (validateRun cfgFix envNotFound "201234567890").ban.isBanned = true ∧
      (validateRun cfgFix envNotFound "201234567890").ban.type =
        BanType.permanent ∧
      (validateRun cfgFix envNotFound "201234567890").review.available =
        false ∧
      (validateRun cfgFix envNotFound "201234567890").summary =
        "Not registered or permanently banned" ∧
      (validateRun cfgFix envNotFound "201234567890").diagnostics.probsExecuted
        = 0 :=
  claim1_unregistered_terminal cfgFix envNotFound "201234567890" [false]
    rfl rfl

/-- C2: every result returned by `validate` satisfies
`probsSuccessful ≤ probsExecuted`, and a non-banned result has
`review.available = false` and `ban.type = None`. -/
theorem claim2_result_invariants (cfg : Config) (env : Env)
    (phone : String) :
    (validateRun cfg env phone).diagnostics.probsSuccessful ≤
        (validateRun cfg env phone).diagnostics.probsExecuted ∧
      ((validateRun cfg env phone).ban.isBanned = false →
        (validateRun cfg env phone).review.available = false ∧
          (validateRun cfg env phone).ban.type = BanType.none) := by
  constructor
  · exact pipeline_probsLe cfg env _ (Nat.le_of_eq rfl)
  · intro hb
    exact pipeline_ban_inv cfg env _ rfl rfl rfl hb

/-- Witness for C2 at a concrete all-successful environment (whose run is
not banned, so the inner implication fires). -/
theorem claim2_witness :
    (validateRun cfgFix envAllOk "201234567890").ban.isBanned = false ∧
      (validateRun cfgFix envAllOk "201234567890").review.available = false ∧
      (validateRun cfgFix envAllOk "201234567890").ban.type = BanType.none ∧
      (validateRun cfgFix envAllOk "201234567890").diagnostics.probsSuccessful
        ≤ (validateRun cfgFix envAllOk "201234567890").diagnostics.probsExecuted := by
  have h := claim2_result_invariants cfgFix envAllOk "201234567890"
  have hb : (validateRun cfgFix envAllOk "201234567890").ban.isBanned = false := by
    decide
  exact ⟨hb, (h.2 hb).1, (h.2 hb).2, h.1⟩

/-- C9: when the pipeline effect throws, `validate` does not propagate the
exception: it returns the partially built result with summary
"Critical validation error" and exactly one additional FATAL-coded error
entry. -/
theorem claim9_catch_contract
    (eff : Result → Except (String × Result) Result) (phone : String)
    (now : Nat) (e : String) (rPartial : Result)
    (heff : eff (createResultObject phone (normalizeJID phone) now) =
      .error (e, rPartial)) :
    (runValidate eff phone now).summary = "Critical validation error" ∧
      (runValidate eff phone now).diagnostics.errorDetails =
        rPartial.diagnostics.errorDetails ++
          [{ stage := "critical", error := e, code := some "FATAL",
             timestamp := Option.none }] ∧
      runValidate eff phone now = validateCatch rPartial e := by
  unfold runValidate
  dsimp only
  rw [heff]
  exact ⟨rfl, rfl, rfl⟩

/-- Witness for C9 with an effect that throws immediately. -/
theorem claim9_witness :
    (runValidate (fun r => .error ("boom", r)) "15551234567" 0).summary =
        "Critical validation error" ∧
      (runValidate (fun r => .error ("boom", r)) "15551234567" 0).diagnostics.errorDetails =
        (createResultObject "15551234567" (normalizeJID "15551234567") 0).diagnostics.errorDetails ++
          [{ stage := "critical", error := "boom", code := some "FATAL",
             timestamp := Option.none }] ∧
      runValidate (fun r => .error ("boom", r)) "15551234567" 0 =
        validateCatch
          (createResultObject "15551234567" (normalizeJID "15551234567") 0)
          "boom" :=
  claim9_catch_contract (fun r => .error ("boom", r)) "15551234567" 0 "boom"
    (createResultObject "15551234567" (normalizeJID "15551234567") 0) rfl

/-- C10: a registration check that reports the account registered
increments both probe counters by one (the registration check is counted
as a probe); a check that reports non-existence or fails increments
neither; consequently the success rate handed to the classifier counts
the registration check in both numerator and denominator. -/
theorem claim10_registration_probe_counting (cfg : Config) (env : Env)
    (r : Result) (phone : String) (l : List Bool) :
    (env.registration = .ok l → regFirst l = true →
        (checkRegistration env r).diagnostics.probsExecuted =
            r.diagnostics.probsExecuted + 1 ∧
          (checkRegistration env r).diagnostics.probsSuccessful =
            r.diagnostics.probsSuccessful + 1) ∧
      (env.registration = .ok l → regFirst l = false →
        (checkRegistration env r).diagnostics.probsExecuted =
            r.diagnostics.probsExecuted ∧
          (checkRegistration env r).diagnostics.probsSuccessful =
            r.diagnostics.probsSuccessful) ∧
      (∀ e, env.registration = .error e →
        (checkRegistration env r).diagnostics.probsExecuted =
            r.diagnostics.probsExecuted ∧
          (checkRegistration env r).diagnostics.probsSuccessful =
            r.diagnostics.probsSuccessful) ∧
      (env.registration = .ok l → regFirst l = true →
        mlRate (executeProbes cfg env
            (checkRegistration env
              (createResultObject phone (normalizeJID phone) env.now))) =
          ((1 + (buildProbeList cfg).countP (probeSucceeds cfg env) : Nat) : ℚ) /
            ((1 + (buildProbeList cfg).length : Nat) : ℚ)) := by
  refine ⟨?_, ?_, ?_, ?_⟩
  · intro hreg hf
    have h := checkRegistration_spec_ok_true env r l hreg hf
    exact ⟨h.1, h.2.1⟩
  · intro hreg hf
    rw [checkRegistration_spec_ok_false env r l hreg hf]
    exact ⟨rfl, rfl⟩
  · intro e hreg
    rw [checkRegistration_spec_error env r e hreg]
    exact ⟨rfl, rfl⟩
  · intro hreg hf
    have hcr := checkRegistration_spec_ok_true env
      (createResultObject phone (normalizeJID phone) env.now) l hreg hf
    have hp := executeProbes_spec cfg env
      (checkRegistration env (createResultObject phone (normalizeJID phone) env.now))
    unfold mlRate
    rw [hp.1, hp.2.1, hcr.1, hcr.2.1]
    norm_num [createResultObject, Nat.add_comm]

/-- Witness for C10, exercising the registered, not-registered and
failing registration environments. -/
theorem claim10_witness :
    ((checkRegistration envAllOk rFix).diagnostics.probsExecuted =
        rFix.diagnostics.probsExecuted + 1 ∧
      (checkRegistration envAllOk rFix).diagnostics.probsSuccessful =
        rFix.diagnostics.probsSuccessful + 1) ∧
      ((checkRegistration envNotFound rFix).diagnostics.probsExecuted =
          rFix.diagnostics.probsExecuted ∧
        (checkRegistration envNotFound rFix).diagnostics.probsSuccessful =
          rFix.diagnostics.probsSuccessful) ∧
      ((checkRegistration envRegError rFix).diagnostics.probsExecuted =
          rFix.diagnostics.probsExecuted ∧
        (checkRegistration envRegError rFix).diagnostics.probsSuccessful =
          rFix.diagnostics.probsSuccessful) ∧
      mlRate (executeProbes cfgFix envAllOk
          (checkRegistration envAllOk
            (createResultObject "201234567890"
              (normalizeJID "201234567890") envAllOk.now))) =
        ((1 + (buildProbeList cfgFix).countP (probeSucceeds cfgFix envAllOk) : Nat) : ℚ) /
          ((1 + (buildProbeList cfgFix).length : Nat) : ℚ) :=
  ⟨(claim10_registration_probe_counting cfgFix envAllOk rFix "201234567890"
      [true]).1 rfl rfl,
    (claim10_registration_probe_counting cfgFix envNotFound rFix
      "201234567890" [false]).2.1 rfl rfl,
    (claim10_registration_probe_counting cfgFix envRegError rFix
      "201234567890" []).2.2.1 "boom 500" rfl,
    (claim10_registration_probe_counting cfgFix envAllOk rFix "201234567890"
      [true]).2.2.2 rfl rfl⟩

/-! ### Substring lemmas for the classifier claims -/

theorem startsWithL_iff : ∀ n h : List Char, startsWithL n h = true ↔ n <+: h
  | [], h => by simp [startsWithL]
  | a :: as, [] => by simp [startsWithL]
  | a :: as, b :: bs => by
    simp [startsWithL, List.cons_prefix_cons, startsWithL_iff as bs]

theorem containsSubL_iff : ∀ hay needle : List Char,
    containsSubL hay needle = true ↔ needle <:+: hay
  | [], n => by
    simp [containsSubL, startsWithL_iff]
  | c :: t, n => by
    rw [containsSubL, List.infix_cons_iff]
    simp [startsWithL_iff, containsSubL_iff t n]

theorem jsIncludes_trans (a b c : String) (h1 : jsIncludes a b = true)
    (h2 : jsIncludes b c = true) : jsIncludes a c = true := by
  unfold jsIncludes at *
  rw [containsSubL_iff] at *
  exact h2.trans h1

/-- The `confidence` field of a score record restated through its own
`matchCount` field. -/
theorem scoreFor_confidence_eq (f : Features) (pat : ErrorPattern) :
    (scoreFor f pat).confidence =
      (if 0 < (scoreFor f pat).matchCount then pat.confidence else 0) := rfl

/-! ### Classifier claim fixtures -/

/-- Evidence for the C5 counterexample: the text contains the phrase of
the claim, but also enough spam keywords to saturate the spam score. -/
def edC5 : List ErrorDetail :=
  [{ stage := "status",
     error := "spam rate limit too many blocked temporarily 429 rate_limit permanently terminated account_deleted",
     code := Option.none, timestamp := some 0 }]

/-- Evidence for the C5 amended-claim witness: exactly the phrase of the
claim. -/
def edC5w : List ErrorDetail :=
  [{ stage := "status", error := "permanently terminated account_deleted",
     code := Option.none, timestamp := some 0 }]

/-- Evidence for the C6 counterexample and witness: two spam keywords. -/
def edC6 : List ErrorDetail :=
  [{ stage := "status", error := "spam rate limit", code := Option.none,
     timestamp := some 0 }]

/-- Evidence for the C8 counterexample: no keyword occurs anywhere and no
code matches, but six errors with three doubled codes produce four
failure patterns. -/
def edC8 : List ErrorDetail :=
  [ { stage := "s1", error := "x", code := some "A", timestamp := some 0 },
    { stage := "s2", error := "x", code := some "A", timestamp := some 0 },
    { stage := "s3", error := "x", code := some "B", timestamp := some 0 },
    { stage := "s4", error := "x", code := some "B", timestamp := some 0 },
    { stage := "s5", error := "x", code := some "C", timestamp := some 0 },
    { stage := "s6", error := "x", code := some "C", timestamp := some 0 } ]

/-- C5 counterexample: evidence whose lowercase error text contains
"permanently terminated account_deleted", analysed with success rate 0,
for which `analyze` nevertheless returns Spam (the spam score also
reaches the 1.0 cap and spam is enumerated first). -/
theorem claim5_counterexample :
    jsIncludes (extractFeatures edC5 0).errorText
        "permanently terminated account_deleted" = true ∧
      (analyze edC5 0).type = BanType.spam ∧
      ¬(analyze edC5 0).type = BanType.permanent := by
  refine ⟨by decide, by decide, by decide⟩

/-- C6 counterexample: an analysis whose best normalized score is
`2/5 ≥ 0.3`, for which the returned effective confidence is the pattern's
base confidence `0.85`, not the normalized score `2/5`. -/
theorem claim6_counterexample :
    analyze edC6 1 =
      { type := BanType.spam, confidence := 17/20, score := some (2/5),
        matchCount := some 2 } ∧
      (3 : ℚ)/10 ≤ 2/5 ∧
      ¬((17 : ℚ)/20 = 2/5) := by
  refine ⟨by decide, by decide, by decide⟩

/-- C8 counterexample: evidence with no keyword occurrence and no
matching code, analysed at the default success rate 0, for which
`analyze` returns Spam with confidence 0 (four identified failure
patterns push every score to `0.34 ≥ 0.3`), not None with 0.5. -/
theorem claim8_counterexample :
    (∀ p ∈ ERROR_PATTERNS, ∀ kw ∈ p.2.keywords,
        jsIncludes (extractFeatures edC8 0).errorText kw = false) ∧
      (∀ p ∈ ERROR_PATTERNS, ∀ c ∈ (extractFeatures edC8 0).errorCodes,
        p.2.keywords.contains (toLowerStr c) = false) ∧
      (analyze edC8 0).type = BanType.spam ∧
      ¬analyze edC8 0 =
        { type := BanType.none, confidence := 1/2, score := Option.none,
          matchCount := Option.none } := by
  refine ⟨by decide, by decide, by decide, by decide⟩

/-- The score record shared by every candidate when nothing matches:
only the flat `+0.5` success-rate penalty and the failure-pattern bonus
remain. -/
def noMatchScore (f : Features) : ScoreData :=
  { raw := if 2 < f.failurePatterns.length
      then 1/2 + (3/10) * (f.failurePatterns.length : ℚ) else 1/2
    normalized := min ((if 2 < f.failurePatterns.length
      then 1/2 + (3/10) * (f.failurePatterns.length : ℚ) else 1/2) / 5) 1
    confidence := 0
    matchCount := 0 }

/-- Score of a pattern with no keyword occurrence, no matching code and
success rate 0. -/
theorem scoreFor_no_matches (f : Features) (pat : ErrorPattern)
    (hk : ∀ kw ∈ pat.keywords, jsIncludes f.errorText kw = false)
    (hc : ∀ c ∈ f.errorCodes, pat.keywords.contains (toLowerStr c) = false)
    (hr : f.successRate = 0) :
    scoreFor f pat = noMatchScore f := by
  unfold noMatchScore
  have hk' : pat.keywords.filter (fun kw => jsIncludes f.errorText kw) = [] := by
    rw [List.filter_eq_nil_iff]
    intro kw hkw
    simp [hk kw hkw]
  have hc' : f.errorCodes.filter
      (fun c => pat.keywords.contains (toLowerStr c)) = [] := by
    rw [List.filter_eq_nil_iff]
    intro c hcm
    rw [hc c hcm]
    simp
  unfold scoreFor
  simp only [hk', hc', hr, List.length_nil, Nat.cast_zero, mul_zero, add_zero,
    Nat.add_zero]
  norm_num

/-- The selection loop on three identical below-threshold candidates
returns the fixed no-signal prediction. -/
theorem makePrediction_below (sd : ScoreData) (h : sd.normalized < 3/10) :
    makePrediction
        [(BanType.spam, sd), (BanType.violation, sd), (BanType.permanent, sd)] =
      { type := BanType.none, confidence := 1/2, score := Option.none,
        matchCount := Option.none } := by
  unfold makePrediction
  simp only [List.foldl]
  split_ifs <;> first | rfl | (exfalso; simp_all)

/-- Evidence for the C8 amended-claim witness: one unmatched error. -/
def edC8w : List ErrorDetail :=
  [{ stage := "s", error := "x", code := some "A", timestamp := some 0 }]

/-- C8 (amended): for evidence with no keyword occurrence in the
concatenated lowercase error text, no extracted error code in any keyword
set, the default success rate 0, and at most three identified failure
patterns, `analyze` returns None with confidence 0.5. -/
theorem claim8_amended (ed : List ErrorDetail)
    (hkw : ∀ p ∈ ERROR_PATTERNS, ∀ kw ∈ p.2.keywords,
      jsIncludes (extractFeatures ed 0).errorText kw = false)
    (hcode : ∀ p ∈ ERROR_PATTERNS, ∀ c ∈ (extractFeatures ed 0).errorCodes,
      p.2.keywords.contains (toLowerStr c) = false)
    (hfp : (extractFeatures ed 0).failurePatterns.length ≤ 3) :
    analyze ed 0 =
      { type := BanType.none, confidence := 1/2, score := Option.none,
        matchCount := Option.none } := by
  have hr : (extractFeatures ed 0).successRate = 0 := rfl
  have hcs : calculateScores (extractFeatures ed 0) =
      [(BanType.spam, noMatchScore (extractFeatures ed 0)),
       (BanType.violation, noMatchScore (extractFeatures ed 0)),
       (BanType.permanent, noMatchScore (extractFeatures ed 0))] := by
    unfold calculateScores
    rw [List.map_congr_left (fun p hp => by
      rw [scoreFor_no_matches (extractFeatures ed 0) p.2 (hkw p hp)
        (hcode p hp) hr])]
    rfl
  have hnorm : (noMatchScore (extractFeatures ed 0)).normalized < 3/10 := by
    unfold noMatchScore
    dsimp only
    rcases le_or_lt (extractFeatures ed 0).failurePatterns.length 2 with hl | hl
    · rw [if_neg (by omega), min_eq_left (by norm_num)]
      norm_num
    · have h3 : (extractFeatures ed 0).failurePatterns.length = 3 := by omega
      rw [if_pos (by omega), h3]
      rw [min_eq_left (by norm_num)]
      norm_num
  unfold analyze
  rw [hcs]
  exact makePrediction_below _ hnorm

/-- Witness for the amended C8 at one unmatched error. -/
theorem claim8_witness :
    analyze edC8w 0 =
      { type := BanType.none, confidence := 1/2, score := Option.none,
        matchCount := Option.none } :=
  claim8_amended edC8w (by decide) (by decide) (by decide)

@[simp] theorem extractFeatures_successRate (ed : List ErrorDetail)
    (rate : ℚ) : (extractFeatures ed rate).successRate = rate := rfl

/-- C5 (amended): for evidence whose concatenated lowercase error text
contains "permanently terminated account_deleted", analysed with success
rate 0, and whose Spam and Violation candidates stay below the 1.0
normalized-score cap, `analyze` returns Permanent with confidence
`0.95 ≥ 0.85`. -/
theorem claim5_amended (ed : List ErrorDetail)
    (hphrase : jsIncludes (extractFeatures ed 0).errorText
      "permanently terminated account_deleted" = true)
    (hspam : (scoreFor (extractFeatures ed 0)
      (patternFor BanType.spam)).normalized < 1)
    (hviol : (scoreFor (extractFeatures ed 0)
      (patternFor BanType.violation)).normalized < 1) :
    (analyze ed 0).type = BanType.permanent ∧
      (analyze ed 0).confidence = 19/20 ∧
      (17 : ℚ)/20 ≤ (analyze ed 0).confidence := by
  have hkw1 : jsIncludes (extractFeatures ed 0).errorText "permanently" = true :=
    jsIncludes_trans _ _ _ hphrase (by decide)
  have hkw2 : jsIncludes (extractFeatures ed 0).errorText "terminated" = true :=
    jsIncludes_trans _ _ _ hphrase (by decide)
  have hkw3 : jsIncludes (extractFeatures ed 0).errorText "deleted" = true :=
    jsIncludes_trans _ _ _ hphrase (by decide)
  have hkw4 : jsIncludes (extractFeatures ed 0).errorText "account_deleted" = true :=
    jsIncludes_trans _ _ _ hphrase (by decide)
  have hpp : patternFor BanType.permanent =
      { keywords := ["permanently", "terminated", "deleted", "404",
                     "banned from using", "account_deleted"]
        weight := 3/2, confidence := 19/20 } := rfl
  have hkwlen : 4 ≤ ((patternFor BanType.permanent).keywords.filter
      (fun kw => jsIncludes (extractFeatures ed 0).errorText kw)).length := by
    rw [hpp]
    rcases h404 : jsIncludes (extractFeatures ed 0).errorText "404" <;>
      rcases hban : jsIncludes (extractFeatures ed 0).errorText
        "banned from using" <;>
        simp [List.filter_cons, hkw1, hkw2, hkw3, hkw4, h404, hban]
  have hmc : 0 < (scoreFor (extractFeatures ed 0)
      (patternFor BanType.permanent)).matchCount := by
    unfold scoreFor
    dsimp only
    omega
  have hnormP : (scoreFor (extractFeatures ed 0)
      (patternFor BanType.permanent)).normalized = 1 := by
    have h4 : (4 : ℚ) ≤ (((patternFor BanType.permanent).keywords.filter
        (fun kw => jsIncludes (extractFeatures ed 0).errorText kw)).length : ℚ) := by
      exact_mod_cast hkwlen
    unfold scoreFor
    dsimp only
    rw [extractFeatures_successRate, if_pos (by norm_num : (0:ℚ) < 3/10)]
    apply min_eq_right
    rw [le_div_iff (by norm_num : (0:ℚ) < 5)]
    have hcode : (0 : ℚ) ≤ (((extractFeatures ed 0).errorCodes.filter
        (fun c => (patternFor BanType.permanent).keywords.contains
          (toLowerStr c))).length : ℚ) := Nat.cast_nonneg _
    have hfpn : (0 : ℚ) ≤
        (((extractFeatures ed 0).failurePatterns.length : Nat) : ℚ) :=
      Nat.cast_nonneg _
    have hw : (patternFor BanType.permanent).weight = 3/2 := rfl
    split
    · rw [hw]
      nlinarith
    · rw [hw]
      nlinarith
  have hconfP : (scoreFor (extractFeatures ed 0)
      (patternFor BanType.permanent)).confidence = 19/20 := by
    rw [scoreFor_confidence_eq, if_pos hmc, hpp]
  have hps : patternFor BanType.spam =
      { keywords := ["spam", "rate limit", "too many", "blocked temporarily",
                     "429", "rate_limit"]
        weight := 1, confidence := 17/20 } := rfl
  have hpv : patternFor BanType.violation =
      { keywords := ["violation", "terms", "policy", "forbidden", "403",
                     "401", "unauthorized"]
        weight := 6/5, confidence := 9/10 } := rfl
  rw [hps] at hspam
  rw [hpv] at hviol
  rw [hpp] at hnormP hconfP
  unfold analyze makePrediction calculateScores
  simp only [ERROR_PATTERNS, List.map_cons, List.map_nil, List.foldl_cons,
    List.foldl_nil]
  rw [hnormP, hconfP]
  split_ifs <;>
    first
      | exact ⟨rfl, rfl, by norm_num⟩
      | (exfalso; simp_all <;> linarith)

/-- Witness for the amended C5 at the bare phrase. -/
theorem claim5_witness :
    (analyze edC5w 0).type = BanType.permanent ∧
      (analyze edC5w 0).confidence = 19/20 ∧
      (17 : ℚ)/20 ≤ (analyze edC5w 0).confidence :=
  claim5_amended edC5w (by decide) (by decide) (by decide)

/-- C6 (amended): when some candidate's normalized score reaches the 0.3
threshold, `analyze` returns the winning kind together with its
normalized score (in the `score` field) and its raw match count; the
effective `confidence` is the winning pattern's stored base confidence
when the match count is positive (0 otherwise), not the normalized
score; and the pipeline records exactly that `confidence` value as
`ban.mlConfidence`. -/
theorem claim6_amended :
    (∀ (ed : List ErrorDetail) (rate : ℚ),
      (analyze ed rate).type ≠ BanType.none →
        ∃ pat : ErrorPattern,
          ((analyze ed rate).type, pat) ∈ ERROR_PATTERNS ∧
            (analyze ed rate).score =
              some (scoreFor (extractFeatures ed rate) pat).normalized ∧
            (analyze ed rate).matchCount =
              some (scoreFor (extractFeatures ed rate) pat).matchCount ∧
            (analyze ed rate).confidence =
              (if 0 < (scoreFor (extractFeatures ed rate) pat).matchCount
                then pat.confidence else 0) ∧
            (3 : ℚ)/10 ≤ (scoreFor (extractFeatures ed rate) pat).normalized) ∧
      (∀ (cfg : Config) (env : Env) (r2 : Result),
        cfg.enableMLDetection = true →
        (analyze r2.diagnostics.errorDetails (mlRate r2)).type ≠
          BanType.none →
        (classifyStage cfg env r2).ban.mlConfidence =
          some (analyze r2.diagnostics.errorDetails (mlRate r2)).confidence) := by
  constructor
  · intro ed rate h
    revert h
    unfold analyze makePrediction calculateScores
    simp only [ERROR_PATTERNS, List.map_cons, List.map_nil, List.foldl_cons,
      List.foldl_nil]
    intro h
    split_ifs at h ⊢ <;>
      first
        | exact absurd rfl h
        | exact ⟨_, by simp [ERROR_PATTERNS], rfl, rfl,
            scoreFor_confidence_eq _ _, by linarith⟩
  · intro cfg env r2 hml h
    unfold classifyStage
    rw [if_pos hml]
    dsimp only
    rw [if_pos h]

/-- A result carrying the C6 evidence, for the pipeline half of the C6
witness. -/
def rC6 : Result :=
  { rFix with diagnostics.errorDetails := edC6 }

/-- Witness for the amended C6 at two spam keywords and full success
rate. -/
theorem claim6_witness :
    (∃ pat : ErrorPattern,
      ((analyze edC6 1).type, pat) ∈ ERROR_PATTERNS ∧
        (analyze edC6 1).score =
          some (scoreFor (extractFeatures edC6 1) pat).normalized ∧
        (analyze edC6 1).matchCount =
          some (scoreFor (extractFeatures edC6 1) pat).matchCount ∧
        (analyze edC6 1).confidence =
          (if 0 < (scoreFor (extractFeatures edC6 1) pat).matchCount
            then pat.confidence else 0) ∧
        (3 : ℚ)/10 ≤ (scoreFor (extractFeatures edC6 1) pat).normalized) ∧
      (classifyStage cfgFix envAllOk rC6).ban.mlConfidence =
        some (analyze rC6.diagnostics.errorDetails (mlRate rC6)).confidence :=
  ⟨claim6_amended.1 edC6 1 (by decide),
    claim6_amended.2 cfgFix envAllOk rC6 rfl (by decide)⟩

/-! ### Cache lemmas (C4) -/

theorem mapSet_absent {α : Type} :
    ∀ (l : List (String × α)) (k : String) (v : α),
      (∀ p ∈ l, p.1 ≠ k) → mapSet l k v = l ++ [(k, v)]
  | [], _, _, _ => rfl
  | (k', v') :: t, k, v, h => by
    have hk : k' ≠ k := h (k', v') (by simp)
    simp only [mapSet, if_neg hk, List.cons_append, List.cons.injEq, true_and]
    exact mapSet_absent t k v (fun p hp => h p (by simp [hp]))

theorem setSeq_append {α : Type} :
    ∀ (a b : List (String × α × Nat)) (c : VCache α),
      setSeq c (a ++ b) = setSeq (setSeq c a) b
  | [], _, _ => rfl
  | op :: t, b, c => by
    simp only [List.cons_append, setSeq]
    exact setSeq_append t b _

theorem cacheSet_maxSize {α : Type} (c : VCache α) (k : String) (d : α)
    (now : Nat) : (cacheSet c k d now).maxSize = c.maxSize := by
  unfold cacheSet evictLRU
  dsimp only
  split
  · split
    · split <;> rfl
    · rfl
  · rfl

theorem setSeq_maxSize {α : Type} :
    ∀ (ops : List (String × α × Nat)) (c : VCache α),
      (setSeq c ops).maxSize = c.maxSize
  | [], _ => rfl
  | op :: t, c => by
    rw [setSeq, setSeq_maxSize t, cacheSet_maxSize]

theorem setSeq_fresh {α : Type} :
    ∀ (ops : List (String × α × Nat)) (c : VCache α),
      (∀ p ∈ ops, ∀ q ∈ c.entries, q.1 ≠ p.1) →
      (ops.map (fun p => p.1)).Nodup →
      c.entries.length + ops.length ≤ c.maxSize →
      (setSeq c ops).entries =
        c.entries ++ ops.map (fun p =>
          (p.1, ({ data := p.2.1, timestamp := p.2.2, lastAccess := p.2.2,
                   accessCount := 1 } : CacheEntry α)))
  | [], c, _, _, _ => by simp [setSeq]
  | (k, d, t) :: rest, c, habs, hnd, hlen => by
    have hnoev : ¬c.maxSize ≤ c.entries.length := by
      simp only [List.length_cons] at hlen
      omega
    have hset : cacheSet c k d t =
        { c with entries := c.entries ++
            [(k, { data := d, timestamp := t, lastAccess := t,
                   accessCount := 1 })] } := by
      unfold cacheSet
      rw [if_neg hnoev]
      dsimp only
      rw [mapSet_absent c.entries k _ (fun p hp => habs (k, d, t) (by simp) p hp)]
    rw [setSeq, hset]
    rw [setSeq_fresh rest _ ?_ ?_ ?_]
    · simp
    · intro p hp q hq
      simp only [List.mem_append, List.mem_singleton] at hq
      rcases hq with hq | hq
      · exact habs p (by simp [hp]) q hq
      · subst hq
        simp only [List.map_cons, List.nodup_cons] at hnd
        intro hk
        apply hnd.1
        rw [show k = p.1 from hk]
        exact List.mem_map_of_mem (fun p => p.1) hp
    · simp only [List.map_cons, List.nodup_cons] at hnd
      exact hnd.2
    · simp only [List.length_append, List.length_singleton, List.length_nil,
        List.length_cons] at hlen ⊢
      omega

theorem evictScan_spec {α : Type} :
    ∀ (l : List (String × CacheEntry α)) (bk : String) (bt : Nat),
      ((∀ y ∈ l, bt ≤ y.2.lastAccess) ∧
          evictScan l (some (bk, bt)) = some bk) ∨
        (∃ pre x post, l = pre ++ x :: post ∧
          evictScan l (some (bk, bt)) = some x.1 ∧
          x.2.lastAccess < bt ∧
          (∀ y ∈ l, x.2.lastAccess ≤ y.2.lastAccess) ∧
          (∀ y ∈ pre, x.2.lastAccess < y.2.lastAccess))
  | [], bk, bt => by
    left
    exact ⟨by simp, rfl⟩
  | (k, e) :: t, bk, bt => by
    by_cases hlt : e.lastAccess < bt
    · right
      rcases evictScan_spec t k e.lastAccess with ⟨hall, hres⟩ |
        ⟨pre, x, post, hdec, hres, hxlt, hmin, hpre⟩
      · refine ⟨[], (k, e), t, by simp, ?_, hlt, ?_, by simp⟩
        · simp only [evictScan, if_pos hlt]
          exact hres
        · intro y hy
          simp only [List.mem_cons] at hy
          rcases hy with hy | hy
          · subst hy; exact le_refl _
          · exact hall y hy
      · refine ⟨(k, e) :: pre, x, post, by simp [hdec], ?_,
          lt_trans hxlt hlt, ?_, ?_⟩
        · simp only [evictScan, if_pos hlt]
          exact hres
        · intro y hy
          simp only [List.mem_cons] at hy
          rcases hy with hy | hy
          · subst hy; exact le_of_lt hxlt
          · exact hmin y (hdec ▸ hy)
        · intro y hy
          simp only [List.mem_cons] at hy
          rcases hy with hy | hy
          · subst hy; exact hxlt
          · exact hpre y hy
    · rcases evictScan_spec t bk bt with ⟨hall, hres⟩ |
        ⟨pre, x, post, hdec, hres, hxlt, hmin, hpre⟩
      · left
        refine ⟨?_, ?_⟩
        · intro y hy
          simp only [List.mem_cons] at hy
          rcases hy with hy | hy
          · subst hy; dsimp only; omega
          · exact hall y hy
        · simp only [evictScan, if_neg hlt]
          exact hres
      · right
        refine ⟨(k, e) :: pre, x, post, by simp [hdec], ?_, hxlt, ?_, ?_⟩
        · simp only [evictScan, if_neg hlt]
          exact hres
        · intro y hy
          simp only [List.mem_cons] at hy
          rcases hy with hy | hy
          · subst hy; dsimp only; omega
          · exact hmin y (hdec ▸ hy)
        · intro y hy
          simp only [List.mem_cons] at hy
          rcases hy with hy | hy
          · subst hy; dsimp only; omega
          · exact hpre y hy

theorem evictScan_none_spec {α : Type} (k : String) (e : CacheEntry α)
    (t : List (String × CacheEntry α)) :
    ∃ pre x post, (k, e) :: t = pre ++ x :: post ∧
      evictScan ((k, e) :: t) Option.none = some x.1 ∧
      (∀ y ∈ (k, e) :: t, x.2.lastAccess ≤ y.2.lastAccess) ∧
      (∀ y ∈ pre, x.2.lastAccess < y.2.lastAccess) := by
  have hstep : evictScan ((k, e) :: t) (Option.none :
      Option (String × Nat)) = evictScan t (some (k, e.lastAccess)) := rfl
  rcases evictScan_spec t k e.lastAccess with ⟨hall, hres⟩ |
    ⟨pre, x, post, hdec, hres, hxlt, hmin, hpre⟩
  · refine ⟨[], (k, e), t, by simp, by rw [hstep]; exact hres, ?_, by simp⟩
    intro y hy
    simp only [List.mem_cons] at hy
    rcases hy with hy | hy
    · subst hy; exact le_refl _
    · exact hall y hy
  · refine ⟨(k, e) :: pre, x, post, by simp [hdec],
      by rw [hstep]; exact hres, ?_, ?_⟩
    · intro y hy
      simp only [List.mem_cons] at hy
      rcases hy with hy | hy
      · subst hy; exact le_of_lt hxlt
      · exact hmin y (hdec ▸ hy)
    · intro y hy
      simp only [List.mem_cons] at hy
      rcases hy with hy | hy
      · subst hy; exact hxlt
      · exact hpre y hy

theorem mapDelete_middle {α : Type} :
    ∀ (pre : List (String × α)) (x : String × α) (post : List (String × α)),
      (∀ y ∈ pre, y.1 ≠ x.1) →
      mapDelete (pre ++ x :: post) x.1 = pre ++ post
  | [], x, post, _ => by simp [mapDelete]
  | y :: pre, x, post, h => by
    have hy : y.1 ≠ x.1 := h y (by simp)
    simp only [List.cons_append, mapDelete, if_neg hy, List.cons.injEq,
      true_and]
    exact mapDelete_middle pre x post (fun z hz => h z (by simp [hz]))

/-- Nonempty-list form of the eviction-scan characterization. -/
theorem evictScan_nonempty_spec {α : Type} (l : List (String × CacheEntry α))
    (hne : l ≠ []) :
    ∃ pre x post, l = pre ++ x :: post ∧
      evictScan l Option.none = some x.1 ∧
      (∀ y ∈ l, x.2.lastAccess ≤ y.2.lastAccess) ∧
      (∀ y ∈ pre, x.2.lastAccess < y.2.lastAccess) := by
  match l, hne with
  | (k, e) :: t, _ => exact evictScan_none_spec k e t

/-- C4 counterexample: a capacity-1 cache receiving two `set` calls with
distinct keys (no intervening `get`); because the first key is the empty
string, `_evictLRU`'s `if (oldest)` truthiness test skips the deletion,
no entry is evicted and the size reaches 2 > 1. -/
theorem claim4_counterexample :
    (setSeq (emptyCache Nat 3600000 1)
        [("", 0, 0), ("a", 0, 1)]).entries.map Prod.fst = ["", "a"] ∧
      (setSeq (emptyCache Nat 3600000 1)
        [("", 0, 0), ("a", 0, 1)]).entries.length = 2 ∧
      ¬(setSeq (emptyCache Nat 3600000 1)
        [("", 0, 0), ("a", 0, 1)]).entries.length ≤ 1 := by
  refine ⟨by decide, by decide, by decide⟩

/-- C4 (amended): for a cache of capacity `C ≥ 1` receiving `C+1` `set`
calls with distinct non-empty keys and no intervening `get`, the size
never exceeds `C` after any `set` returns, exactly one entry is evicted
(the final size is `C`), and the evicted entry is the one with the
smallest `lastAccessMs` at eviction time, ties broken first-found in
iteration order. -/
theorem claim4_amended (C : Nat) (hC : 1 ≤ C) (ops : List (String × Nat × Nat))
    (hlen : ops.length = C + 1)
    (hnd : (ops.map (fun p => p.1)).Nodup)
    (hne : ∀ p ∈ ops, p.1 ≠ "") :
    (∀ i, (setSeq (emptyCache Nat 3600000 C) (ops.take i)).entries.length ≤ C) ∧
      (setSeq (emptyCache Nat 3600000 C) ops).entries.length = C ∧
      (∃ pre x post,
        (setSeq (emptyCache Nat 3600000 C) (ops.take C)).entries =
          pre ++ x :: post ∧
        (∀ y ∈ (setSeq (emptyCache Nat 3600000 C) (ops.take C)).entries,
          x.2.lastAccess ≤ y.2.lastAccess) ∧
        (∀ y ∈ pre, x.2.lastAccess < y.2.lastAccess) ∧
        (∃ klast dlast tlast, ops.drop C = [(klast, dlast, tlast)] ∧
          (setSeq (emptyCache Nat 3600000 C) ops).entries =
            (pre ++ post) ++ [(klast,
              { data := dlast, timestamp := tlast, lastAccess := tlast,
                accessCount := 1 })])) := by
  have hdlen : (ops.drop C).length = 1 := by
    simp [hlen]
  obtain ⟨lastOp, hdrop⟩ := List.length_eq_one.mp hdlen
  obtain ⟨kl, dl, tl⟩ := lastOp
  have htake_len : (ops.take C).length = C := by
    simp [hlen]
  have hndT : ((ops.take C).map (fun p => p.1)).Nodup := by
    rw [List.map_take]
    exact (List.take_sublist _ _).nodup hnd
  have hfront := setSeq_fresh (ops.take C) (emptyCache Nat 3600000 C)
    (by intro p hp q hq; simp [emptyCache] at hq) hndT
    (by simp [emptyCache, htake_len])
  have hflen : (setSeq (emptyCache Nat 3600000 C)
      (ops.take C)).entries.length = C := by
    rw [hfront]
    simp [emptyCache, htake_len]
    omega
  have hfmax : (setSeq (emptyCache Nat 3600000 C)
      (ops.take C)).maxSize = C := by
    rw [setSeq_maxSize]
    rfl
  have hkeys : (setSeq (emptyCache Nat 3600000 C)
      (ops.take C)).entries.map Prod.fst = (ops.take C).map (fun p => p.1) := by
    rw [hfront]
    simp [emptyCache, List.map_map]
    rfl
  have hkeysnd : ((setSeq (emptyCache Nat 3600000 C)
      (ops.take C)).entries.map Prod.fst).Nodup := by
    rw [hkeys]; exact hndT
  -- the final `set` runs on the full front state
  have hms : setSeq (emptyCache Nat 3600000 C) ops =
      cacheSet (setSeq (emptyCache Nat 3600000 C) (ops.take C)) kl dl tl := by
    conv_lhs => rw [← List.take_append_drop C ops]
    rw [setSeq_append, hdrop]
    rfl
  -- eviction characterization
  obtain ⟨pre, x, post, hdec, hscan, hmin, hpre⟩ :=
    evictScan_nonempty_spec (setSeq (emptyCache Nat 3600000 C)
      (ops.take C)).entries (by intro hnil; rw [hnil] at hflen; simp at hflen; omega)
  -- the evicted key is a non-empty key of the front block
  have hxmem : x ∈ (setSeq (emptyCache Nat 3600000 C) (ops.take C)).entries := by
    rw [hdec]; simp
  have hxkey : x.1 ∈ (ops.take C).map (fun p => p.1) := by
    rw [← hkeys]
    exact List.mem_map_of_mem Prod.fst hxmem
  have hxne : x.1 ≠ "" := by
    obtain ⟨p, hp, hpk⟩ := List.mem_map.mp hxkey
    rw [← hpk]
    exact hne p (List.mem_of_mem_take hp)
  have hprene : ∀ y ∈ pre, y.1 ≠ x.1 := by
    intro y hy
    have hknd := hkeysnd
    rw [hdec, List.map_append, List.map_cons] at hknd
    have hdisj := List.disjoint_of_nodup_append hknd
    intro hyx
    exact hdisj (List.mem_map_of_mem Prod.fst hy) (by simp [hyx])
  -- the evicting step
  have hev : evictLRU (setSeq (emptyCache Nat 3600000 C) (ops.take C)) =
      { setSeq (emptyCache Nat 3600000 C) (ops.take C) with
        entries := pre ++ post } := by
    unfold evictLRU
    rw [hscan]
    dsimp only
    rw [if_neg hxne, hdec, mapDelete_middle pre x post hprene]
  -- the last key is absent from the surviving entries
  have hklabs : ∀ q ∈ pre ++ post, q.1 ≠ kl := by
    have hops : ops.map (fun p => p.1) =
        (ops.take C).map (fun p => p.1) ++ [kl] := by
      conv_lhs => rw [← List.take_append_drop C ops]
      rw [List.map_append, hdrop]
      rfl
    have hait := hnd
    rw [hops] at hait
    have hdisj := List.disjoint_of_nodup_append hait
    intro q hq hqk
    have hqmem : q ∈ (setSeq (emptyCache Nat 3600000 C) (ops.take C)).entries := by
      rw [hdec]
      rcases List.mem_append.mp hq with h | h
      · exact List.mem_append.mpr (Or.inl h)
      · exact List.mem_append.mpr (Or.inr (List.mem_cons_of_mem x h))
    have : q.1 ∈ (ops.take C).map (fun p => p.1) := by
      rw [← hkeys]
      exact List.mem_map_of_mem Prod.fst hqmem
    exact hdisj this (by simp [hqk])
  have hfinal : (setSeq (emptyCache Nat 3600000 C) ops).entries =
      (pre ++ post) ++ [(kl,
        { data := dl, timestamp := tl, lastAccess := tl,
          accessCount := 1 })] := by
    rw [hms]
    unfold cacheSet
    rw [if_pos (by rw [hfmax, hflen])]
    rw [hev]
    dsimp only
    rw [mapSet_absent _ kl _ hklabs]
  have hprelen : pre.length + post.length + 1 = C := by
    have := hflen
    rw [hdec] at this
    simp at this
    omega
  have hClen : (setSeq (emptyCache Nat 3600000 C) ops).entries.length = C := by
    rw [hfinal]
    simp
    omega
  refine ⟨?_, hClen, pre, x, post, hdec, hmin, hpre, kl, dl, tl, hdrop, hfinal⟩
  intro i
  rcases le_or_lt i C with hi | hi
  · have hndI : ((ops.take i).map (fun p => p.1)).Nodup := by
      rw [List.map_take]
      exact (List.take_sublist _ _).nodup hnd
    have hfr := setSeq_fresh (ops.take i) (emptyCache Nat 3600000 C)
      (by intro p hp q hq; simp [emptyCache] at hq) hndI
      (by simp [emptyCache, hlen]; omega)
    rw [hfr]
    simp [emptyCache, hlen]
    omega
  · rw [List.take_of_length_le (by omega)]
    omega

/-- Witness for the amended C4 on a capacity-1 cache and two non-empty
keys. -/
theorem claim4_witness :
    (∀ i, (setSeq (emptyCache Nat 3600000 1)
        (([("a", 10, 5), ("b", 20, 7)] :
          List (String × Nat × Nat)).take i)).entries.length ≤ 1) ∧
      (setSeq (emptyCache Nat 3600000 1)
        ([("a", 10, 5), ("b", 20, 7)] :
          List (String × Nat × Nat))).entries.length = 1 ∧
      (∃ pre x post,
        (setSeq (emptyCache Nat 3600000 1)
          (([("a", 10, 5), ("b", 20, 7)] :
            List (String × Nat × Nat)).take 1)).entries = pre ++ x :: post ∧
        (∀ y ∈ (setSeq (emptyCache Nat 3600000 1)
            (([("a", 10, 5), ("b", 20, 7)] :
              List (String × Nat × Nat)).take 1)).entries,
          x.2.lastAccess ≤ y.2.lastAccess) ∧
        (∀ y ∈ pre, x.2.lastAccess < y.2.lastAccess) ∧
        (∃ klast dlast tlast,
          ([("a", 10, 5), ("b", 20, 7)] :
            List (String × Nat × Nat)).drop 1 = [(klast, dlast, tlast)] ∧
          (setSeq (emptyCache Nat 3600000 1)
            ([("a", 10, 5), ("b", 20, 7)] :
              List (String × Nat × Nat))).entries =
            (pre ++ post) ++ [(klast,
              { data := dlast, timestamp := tlast, lastAccess := tlast,
                accessCount := 1 })])) :=
  claim4_amended 1 (by decide) [("a", 10, 5), ("b", 20, 7)] (by decide)
    (by decide) (by decide)

/-! ### Rate-limiter lemmas (C3) -/

/-- Window-bound invariant of the acquire loop: if all commits so far
are in the past, the committed timestamps still inside the window form a
sublist of the tracked request list, and every window holds at most
`maxRequests` commits, then the same window bound holds after any
further monotone sequence of acquire attempts. -/
theorem runAcquires_window (cfg : RateLimiter) :
    ∀ (times : List Nat) (n : Nat) (reqs committed : List Nat),
      List.Chain (· ≤ ·) n times →
      (∀ t ∈ committed, t ≤ n) →
      List.Sublist (committed.filter
        (fun t => decide (n - t < cfg.windowMs))) reqs →
      (∀ a, windowCount cfg.windowMs committed a ≤ cfg.maxRequests) →
      ∀ a, windowCount cfg.windowMs
        (runAcquires cfg reqs committed times).2 a ≤ cfg.maxRequests := by
  intro times
  induction times with
  | nil => intro n reqs committed _ _ _ h2 a; exact h2 a
  | cons now rest ih =>
    intro n reqs committed hchain h1 h3 h2 a
    have hn_now : n ≤ now := (List.chain_cons.mp hchain).1
    have hchain' : List.Chain (· ≤ ·) now rest := (List.chain_cons.mp hchain).2
    have hsub : List.Sublist (committed.filter
        (fun t => decide (now - t < cfg.windowMs)))
        (prune cfg.windowMs now reqs) := by
      have heq : committed.filter (fun t => decide (now - t < cfg.windowMs)) =
          (committed.filter (fun t => decide (n - t < cfg.windowMs))).filter
            (fun t => decide (now - t < cfg.windowMs)) := by
        rw [List.filter_filter]
        apply List.filter_congr
        intro t ht
        have htn : t ≤ n := h1 t ht
        rcases Nat.lt_or_ge (now - t) cfg.windowMs with hlt | hge
        · simp only [decide_eq_true hlt, Bool.true_and,
            decide_eq_true (by omega : n - t < cfg.windowMs)]
        · simp only [decide_eq_false (by omega : ¬now - t < cfg.windowMs),
            Bool.false_and]
      rw [heq]
      exact h3.filter _
    by_cases hblock : cfg.maxRequests ≤ (prune cfg.windowMs now reqs).length
    · rw [show runAcquires cfg reqs committed (now :: rest) =
          runAcquires cfg (prune cfg.windowMs now reqs) committed rest from by
        simp [runAcquires, acquireStep, hblock]]
      exact ih now _ committed hchain'
        (fun t ht => le_trans (h1 t ht) hn_now) hsub h2 a
    · rw [show runAcquires cfg reqs committed (now :: rest) =
          runAcquires cfg (prune cfg.windowMs now reqs ++ [now])
            (committed ++ [now]) rest from by
        simp [runAcquires, acquireStep, hblock]]
      apply ih now _ _ hchain'
      · intro t ht
        rcases List.mem_append.mp ht with h | h
        · exact le_trans (h1 t h) hn_now
        · simp only [List.mem_singleton] at h
          omega
      · rw [List.filter_append]
        exact List.Sublist.append hsub (List.filter_sublist _)
      · intro b
        unfold windowCount
        rw [List.filter_append, List.length_append]
        by_cases hwin : b < now ∧ now ≤ b + cfg.windowMs
        · have hsubw : List.Sublist (committed.filter
              (fun t => decide (b < t) && decide (t ≤ b + cfg.windowMs)))
              (committed.filter (fun t => decide (now - t < cfg.windowMs))) := by
            apply List.monotone_filter_right
            intro t hcond
            simp only [Bool.and_eq_true, decide_eq_true_eq] at hcond
            simp only [decide_eq_true_eq]
            omega
          have hlen1 := hsubw.length_le
          have hlen2 := hsub.length_le
          have hlen3 := (List.filter_sublist (p :=
            (fun t => decide (b < t) && decide (t ≤ b + cfg.windowMs)))
            [now]).length_le
          simp only [List.length_singleton] at hlen3
          omega
        · have hc : (decide (b < now) && decide (now ≤ b + cfg.windowMs))
              = false := by
            rcases Nat.lt_or_ge b now with h | h <;>
              rcases Nat.lt_or_ge (b + cfg.windowMs) now with h' | h' <;>
                simp_all
          have hnil : (List.filter
              (fun t => decide (b < t) && decide (t ≤ b + cfg.windowMs))
              [now]) = [] := by
            simp [List.filter, hc]
          rw [hnil]
          have := h2 b
          unfold windowCount at this
          simp only [List.length_nil]
          omega

/-- C3: for a rate limiter with `maxRequests ≥ 1`, (a) across any window
of length `windowMs` the number of committed timestamps never exceeds
`maxRequests`, for every monotone sequence of acquire attempts; and
(b) an acquire attempt made while `maxRequests` timestamps are inside
the window commits nothing, computes a positive wait, and at the resumed
time `now + wait` the oldest tracked timestamp has exited the window. -/
theorem claim3_rate_limiter (cfg : RateLimiter)
    (hmax : 1 ≤ cfg.maxRequests) :
    (∀ times : List Nat, times.Chain' (· ≤ ·) →
      ∀ a, windowCount cfg.windowMs (runAcquires cfg [] [] times).2 a ≤
        cfg.maxRequests) ∧
      (∀ (reqs : List Nat) (now : Nat),
        (∀ t ∈ reqs, t ≤ now) →
        cfg.maxRequests ≤ (prune cfg.windowMs now reqs).length →
        (acquireStep cfg reqs now).2 = false ∧
          0 < acquireWait cfg reqs now ∧
          ¬((now + acquireWait cfg reqs now) -
              (prune cfg.windowMs now reqs).headD 0 < cfg.windowMs)) := by
  constructor
  · intro times hchain a
    apply runAcquires_window cfg times 0 [] []
    · cases times with
      | nil => exact List.Chain.nil
      | cons t ts => exact List.chain_cons.mpr ⟨Nat.zero_le t, hchain⟩
    · simp
    · simp
    · intro b
      unfold windowCount
      simp
  · intro reqs now hle hblock
    have hne : prune cfg.windowMs now reqs ≠ [] := by
      intro h
      rw [h] at hblock
      simp at hblock
      omega
    obtain ⟨h0, t0, hp⟩ : ∃ h0 t0, prune cfg.windowMs now reqs = h0 :: t0 := by
      cases hp : prune cfg.windowMs now reqs with
      | nil => exact absurd hp hne
      | cons a b => exact ⟨a, b, rfl⟩
    have hmem : h0 ∈ prune cfg.windowMs now reqs := by
      rw [hp]; simp
    have hcond : now - h0 < cfg.windowMs := by
      have := List.of_mem_filter hmem
      simpa using this
    have hh0le : h0 ≤ now := hle h0 (List.mem_of_mem_filter hmem)
    have hhead : (prune cfg.windowMs now reqs).headD 0 = h0 := by
      rw [hp]; rfl
    refine ⟨?_, ?_, ?_⟩
    · unfold acquireStep
      simp [hblock]
    · unfold acquireWait
      rw [hhead]
      omega
    · unfold acquireWait
      rw [hhead]
      omega

/-- Witness for C3 at a concrete limiter and trace: two slots per 10 ms
window, attempts at times 0, 1, 2; plus a blocked attempt on a full
window. -/
theorem claim3_witness :
    (∀ a, windowCount 10
        (runAcquires { maxRequests := 2, windowMs := 10 } [] [] [0, 1, 2]).2 a
          ≤ 2) ∧
      (acquireStep { maxRequests := 2, windowMs := 10 } [0, 1] 2).2 = false ∧
      0 < acquireWait { maxRequests := 2, windowMs := 10 } [0, 1] 2 ∧
      ¬((2 + acquireWait { maxRequests := 2, windowMs := 10 } [0, 1] 2) -
          (prune 10 2 [0, 1]).headD 0 < 10) := by
  have h := claim3_rate_limiter { maxRequests := 2, windowMs := 10 }
    (by decide)
  have h1 := h.1 [0, 1, 2] (by
    refine List.chain'_cons.mpr ⟨by omega, List.chain'_cons.mpr ⟨by omega, ?_⟩⟩
    exact List.chain'_singleton 2)
  have h2 := h.2 [0, 1] 2 (by decide) (by decide)
  exact ⟨h1, h2.1, h2.2.1, h2.2.2⟩

/-- C7 counterexample: the cache key of `validate` is built from the raw
input, not the normalized identifier: for input "1-2" the key differs
from the namespace tag followed by the normalized identifier, and the
two inputs "1-2" and "12" — which share one normalized identifier — use
different cache keys, hence different cache entries. -/
theorem claim7_counterexample :
    cacheKeyOf "1-2" ≠ "validate:" ++ normalizeJID "1-2" ∧
      normalizeJID "1-2" = normalizeJID "12" ∧
      cacheKeyOf "1-2" ≠ cacheKeyOf "12" := by
  refine ⟨by decide, by decide, by decide⟩

/-- C7 (amended): the cache key used by `validate` equals the fixed
namespace tag "validate:" followed by the raw input phone number, and
two inputs share one cache key exactly when their raw strings are
equal. -/
theorem claim7_cache_key :
    (∀ p : String, cacheKeyOf p = "validate:" ++ p) ∧
      (∀ p q : String, cacheKeyOf p = cacheKeyOf q ↔ p = q) := by
  constructor
  · intro p
    rfl
  · intro p q
    constructor
    · intro h
      have hd : ("validate:" ++ p).data = ("validate:" ++ q).data :=
        congrArg String.data h
      rw [String.data_append, String.data_append] at hd
      have := List.append_cancel_left hd
      exact String.ext this
    · intro h
      rw [h]

/-- Witness for the amended C7 at concrete inputs. -/
theorem claim7_witness :
    cacheKeyOf "99" = "validate:" ++ "99" ∧
      (cacheKeyOf "99" = cacheKeyOf "98" ↔ ("99" : String) = "98") :=
  ⟨claim7_cache_key.1 "99", claim7_cache_key.2 "99" "98"⟩

end WV
